import Mathlib

/-!
Verification of the token-lifecycle core of `src/info-providers/RiotAuthProvider.js`
(insomnia-plugin-valorant).

The JavaScript source is shallowly embedded as executable Lean functions:

* JS numbers that can be `NaN` (the in-memory `expiresAt`, results of `parseInt`
  and of arithmetic on URL-fragment strings) are modelled by `JSNum`.
* The external world of one `_newInvoke` call (clock readings, the silent
  re-auth fetch, the interactive login window, the two credential lookups) is
  an oracle record `Env`; the persistence store is threaded explicitly as
  `StoreState`, with the `parseInt` image of the saved `expiresAt` stored
  directly as a `JSNum`.
* Asynchronous effects are recorded in an explicit effect log (`Effect`), and
  the promise-coalescing of `invoke` is modelled by a small transition system
  (`CoState`) that reflects JavaScript run-to-completion semantics: the
  `if(!this.pending)` test and the assignment of `this.pending` happen with no
  intervening suspension point, so caller arrivals are atomic steps.
* Ghost generation counters (`genCounter`, `tokenGen`, `entGen`, `puuidGen`)
  instrument which token acquisition each in-memory credential came from; they
  change exactly when the source assigns the corresponding field.
-/

/-- A JavaScript number as used by the source: either `NaN` or an integer
(every numeric value the source manipulates is integral: millisecond
timestamps, `parseInt` results, and products of integer literals). -/
inductive JSNum where
  | nan
  | num (n : Int)
deriving DecidableEq, Repr

/-- JS `<=` on numbers: any comparison with `NaN` is false. -/
def jsLeB : JSNum → JSNum → Bool
  | JSNum.num a, JSNum.num b => a ≤ b
  | _, _ => false

/-- JS `<` on numbers: any comparison with `NaN` is false. -/
def jsLtB : JSNum → JSNum → Bool
  | JSNum.num a, JSNum.num b => a < b
  | _, _ => false

/-- JS `===` on numbers: `NaN === x` is false for every `x`. -/
def jsEqB : JSNum → JSNum → Bool
  | JSNum.num a, JSNum.num b => a == b
  | _, _ => false

/-- JS `+` on numbers, with `NaN` propagation. -/
def jsAdd : JSNum → JSNum → JSNum
  | JSNum.num a, JSNum.num b => JSNum.num (a + b)
  | _, _ => JSNum.nan

/-- JS `-` on numbers, with `NaN` propagation. -/
def jsSub : JSNum → JSNum → JSNum
  | JSNum.num a, JSNum.num b => JSNum.num (a - b)
  | _, _ => JSNum.nan

/-- JS `*` on numbers, with `NaN` propagation. -/
def jsMul : JSNum → JSNum → JSNum
  | JSNum.num a, JSNum.num b => JSNum.num (a * b)
  | _, _ => JSNum.nan

/-- Value of a decimal digit character, if it is one. -/
def decDigit? (c : Char) : Option Nat :=
  if c.isDigit then some (c.toNat - 48) else none

/-- One step of reading a decimal number left to right. -/
def digitStep (acc : Option Nat) (c : Char) : Option Nat :=
  match acc, decDigit? c with
  | some a, some d => some (a * 10 + d)
  | _, _ => none

/-- Decimal value of a character list, `none` when some character is not a
digit.  The empty list yields `some 0`, matching JS `Number("") = 0`. -/
def digitsVal? (l : List Char) : Option Nat :=
  l.foldl digitStep (some 0)

/-- Integer value of an optionally-signed decimal character list, matching
JS `Number` on those shapes: an empty list is `0`, a bare sign is not a
number, a sign must be followed by digits. -/
def signDigitsVal? (l : List Char) : Option Int :=
  match l with
  | [] => some 0
  | c :: rest =>
    if c = '-' then
      if rest.isEmpty then none
      else (digitsVal? rest).map (fun n => -(Int.ofNat n))
    else if c = '+' then
      if rest.isEmpty then none else (digitsVal? rest).map (fun n => Int.ofNat n)
    else (digitsVal? l).map (fun n => Int.ofNat n)

/-- JS numeric coercion of a `string | null` value, as applied by
`tokenData.expiresIn * 1000` in the source.  Exact for `null` (which
coerces to `0`), the empty string, and optionally-signed decimal integer
strings; other JS-numeric shapes (fractions, exponents, surrounding
whitespace, hex) are conservatively mapped to `NaN`, and no theorem below
depends on a string of those shapes coercing to a number. -/
def toNumber : Option String → JSNum
  | none => JSNum.num 0
  | some s =>
    match signDigitsVal? s.data with
    | some n => JSNum.num n
    | none => JSNum.nan

/-- A cookie in the tough-cookie jar, reduced to the fields the source reads:
its `key` and the absolute expiry in milliseconds returned by
`cookie.expiryTime()`. -/
structure Cookie where
  key : String
  value : String
  expiryTime : Int
deriving DecidableEq, Repr

/-- A cookie harvested from the electron login window's session
(`showSignIn` resolves with these). -/
structure ElectronCookie where
  name : String
  value : String
  session : Bool
  expirationDate : Int
deriving DecidableEq, Repr

/-- `RiotAuthProvider.logIn` lines 131-139: a non-session electron cookie is
stored in the jar with `expires = new Date(cookie.expirationDate * 1000)`. -/
def cookieOfElectron (c : ElectronCookie) : Cookie :=
  { key := c.name, value := c.value, expiryTime := c.expirationDate * 1000 }

/-- `RiotAuthProvider.hasLoginCookie` line 146: some jar cookie has key
`ssid` and `expiryTime() > now`. -/
def hasLoginCookie (jar : List Cookie) (now : Int) : Bool :=
  jar.any (fun c => c.key == "ssid" && now < c.expiryTime)

/-- A URL that `new URL(...)` accepted, reduced to what the source reads from
it: the `key=value` pairs of its hash fragment.  An unparseable URL string
(including the `null` redirect of a non-redirect response, coerced to the
string `"null"`) is represented by `none` at the use sites. -/
structure ParsedURL where
  hashParams : List (String × String)
deriving DecidableEq, Repr

/-- `URLSearchParams.get`: first value bound to the key, else `null`. -/
def searchParamsGet (ps : List (String × String)) (k : String) : Option String :=
  (ps.find? (fun p => p.1 == k)).map Prod.snd

/-- The raw token payload assembled by `getTokenDataFromURL`; both fields are
`string | null` since `searchParams.get` returns `null` for a missing key. -/
structure TokenData where
  accessToken : Option String
  expiresIn : Option String
deriving DecidableEq, Repr

/-- The payload's `expires_in` is absent or a plain decimal-digit string —
the shape the identity provider actually sends — on which `toNumber` agrees
exactly with JS `Number` and the value is nonnegative. -/
def plainExpiresIn (td : TokenData) : Bool :=
  match td.expiresIn with
  | none => true
  | some s => s.data.all (fun c => c.isDigit)

/-- `getTokenDataFromURL` lines 9-23: throws `Bad url` exactly when the URL
constructor throws (the argument is not a parseable URL); otherwise returns
the (possibly `null`) `access_token` and `expires_in` fragment fields. -/
def getTokenDataFromURL (url : Option ParsedURL) : Except String TokenData :=
  match url with
  | none => Except.error "Bad url"
  | some u =>
    Except.ok
      { accessToken := searchParamsGet u.hashParams "access_token"
        expiresIn := searchParamsGet u.hashParams "expires_in" }

/-- Umbrella of the errors `invoke` can reject with: the wrapped
`new Error('Riot login failed')` of line 234, or an uncaught external error
propagated unchanged. -/
inductive RiotErr where
  | riotLoginFailed
  | ext (msg : String)
deriving DecidableEq, Repr

/-- Decidable equality of `Except` values, used to evaluate concrete
results. -/
instance exceptDecEq {ε α : Type} [DecidableEq ε] [DecidableEq α] :
    DecidableEq (Except ε α) := fun a b =>
  match a, b with
  | Except.ok x, Except.ok y =>
    if h : x = y then Decidable.isTrue (by rw [h])
    else Decidable.isFalse (fun hc => h (Except.ok.inj hc))
  | Except.error x, Except.error y =>
    if h : x = y then Decidable.isTrue (by rw [h])
    else Decidable.isFalse (fun hc => h (Except.error.inj hc))
  | Except.ok _, Except.error _ => Decidable.isFalse (fun hc => Except.noConfusion hc)
  | Except.error _, Except.ok _ => Decidable.isFalse (fun hc => Except.noConfusion hc)

/-- Log of externally-visible effects of one `_newInvoke` run.  `storeHas` is
the `hasItem('expiresAt')` probe, `storeLoad` the batch of `getItem` reads,
`storeWrite` the `Promise.all` batch of five `setItem` writes,
`strategyCall` marks entry into the token-acquisition fallback chain
(lines 210-235), `reauthCall`/`loginCall` the two acquisition paths,
`deriveEnt`/`derivePuuid` the two credential lookups, and `logError` the
`logger.error` call in the catch of line 231. -/
inductive Effect where
  | storeHas
  | storeLoad
  | storeWrite
  | strategyCall
  | reauthCall
  | loginCall
  | deriveEnt
  | derivePuuid
  | logError (msg : String)
deriving DecidableEq, Repr

/-- Boolean equality on effects (structural). -/
def effEq : Effect → Effect → Bool
  | Effect.storeHas, Effect.storeHas => true
  | Effect.storeLoad, Effect.storeLoad => true
  | Effect.storeWrite, Effect.storeWrite => true
  | Effect.strategyCall, Effect.strategyCall => true
  | Effect.reauthCall, Effect.reauthCall => true
  | Effect.loginCall, Effect.loginCall => true
  | Effect.deriveEnt, Effect.deriveEnt => true
  | Effect.derivePuuid, Effect.derivePuuid => true
  | Effect.logError a, Effect.logError b => a == b
  | _, _ => false

/-- Number of occurrences of one effect in a log. -/
def countEffect (l : List Effect) (e : Effect) : Nat :=
  (l.filter (fun x => effEq x e)).length

/-- In-memory state of a `RiotAuthProvider` instance (constructor lines
72-83), plus ghost generation counters: `genCounter` counts credential
generations (one per store load or token acquisition), and
`tokenGen`/`entGen`/`puuidGen` record the generation from which the
corresponding in-memory field was last assigned.  The ghost fields change
exactly when the source assigns `this.token` / `this.entitlement` /
`this.puuid`. -/
structure ProviderState where
  jar : List Cookie
  expiresAt : JSNum
  token : Option String
  entitlement : Option String
  puuid : Option String
  genCounter : Nat
  tokenGen : Nat
  entGen : Nat
  puuidGen : Nat
deriving DecidableEq, Repr

/-- State at construction: empty jar, `expiresAt = 0`, all credentials
`null`. -/
def initState : ProviderState :=
  { jar := [], expiresAt := JSNum.num 0, token := none, entitlement := none
    puuid := none, genCounter := 0, tokenGen := 0, entGen := 0, puuidGen := 0 }

/-- The persisted record behind the five store keys.  `expiresAtV = none`
means the `expiresAt` key is absent (`hasItem` is false); `some v` means the
key is present and `parseInt` of the stored string yields `v` (`JSNum.nan`
for a non-numeric string).  `cookies = none` means the serialized jar is
absent or not deserializable (in which case `CookieJar.deserializeSync`
throws in the source). -/
structure StoreState where
  expiresAtV : Option JSNum
  token : Option String
  entitlement : Option String
  puuid : Option String
  cookies : Option (List Cookie)
deriving DecidableEq, Repr

/-- A store with none of the five keys set. -/
def emptyStore : StoreState :=
  { expiresAtV := none, token := none, entitlement := none, puuid := none
    cookies := none }

/-- Oracle for the external world during one `_newInvoke` call: the two
clock readings of lines 205 and 243, the clock reading inside
`hasLoginCookie`, and the outcomes of the four network-or-UI interactions.
`reauthFetch` is the manual-redirect fetch of `reauthToken` (its `ok` value
is the `Location` header as a URL; `none` stands for an absent header or an
unparseable URL).  `loginResult` is the outcome of `showSignIn` (token data
of the callback fragment together with the harvested window cookies). -/
structure Env where
  now : Int
  cookieNow : Int
  now2 : Int
  reauthFetch : Except String (Option ParsedURL)
  loginResult : Except String (TokenData × List ElectronCookie)
  entitlementResult : Except String String
  puuidResult : Except String String

/-- `RiotAuthProvider.reauthToken` lines 149-160: fetch the sign-in URL
without following redirects and parse the token data out of the `Location`
header. -/
def reauthTokenM (env : Env) : Except String TokenData :=
  match env.reauthFetch with
  | Except.error e => Except.error e
  | Except.ok u => getTokenDataFromURL u

/-- `RiotAuthProvider.logIn` lines 123-142: run `showSignIn`; on success add
every non-session window cookie to the jar and return the token data; a
closed window rejects. -/
def logInM (jar : List Cookie) (env : Env) :
    Except String (TokenData × List Cookie) :=
  match env.loginResult with
  | Except.error e => Except.error e
  | Except.ok p =>
    Except.ok (p.1, jar ++ (p.2.filter (fun c => !c.session)).map cookieOfElectron)

/-- The silent re-auth path of this environment can only deliver a payload
whose `expires_in` is absent or a plain digit string. -/
def envPlainReauth (env : Env) : Bool :=
  match env.reauthFetch with
  | Except.ok (some u) =>
    plainExpiresIn
      { accessToken := searchParamsGet u.hashParams "access_token"
        expiresIn := searchParamsGet u.hashParams "expires_in" }
  | _ => true

/-- The interactive-login path of this environment can only deliver a
payload whose `expires_in` is absent or a plain digit string. -/
def envPlainLogin (env : Env) : Bool :=
  match env.loginResult with
  | Except.ok p => plainExpiresIn p.1
  | _ => true

/-- Both acquisition paths of this environment deliver only payloads whose
`expires_in` is absent or a plain digit string. -/
def envPlainPayloads (env : Env) : Bool :=
  envPlainReauth env && envPlainLogin env

/-- Result of the token-acquisition fallback chain. -/
structure StratOut where
  result : Except RiotErr TokenData
  jar : List Cookie
  effects : List Effect
deriving Repr

/-- Lines 210-235 of `_newInvoke` (the spec's Renewal Strategy): if a valid
login cookie exists, try silent re-auth and on any of its errors fall back
to interactive login; otherwise go to interactive login directly.  Any error
escaping these branches is logged and replaced by `Riot login failed`. -/
def renewalStrategy (jar : List Cookie) (env : Env) : StratOut :=
  if hasLoginCookie jar env.cookieNow then
    match reauthTokenM env with
    | Except.ok td =>
      { result := Except.ok td, jar := jar
        effects := [Effect.strategyCall, Effect.reauthCall] }
    | Except.error _ =>
      match logInM jar env with
      | Except.ok p =>
        { result := Except.ok p.1, jar := p.2
          effects := [Effect.strategyCall, Effect.reauthCall, Effect.loginCall] }
      | Except.error e =>
        { result := Except.error RiotErr.riotLoginFailed, jar := jar
          effects := [Effect.strategyCall, Effect.reauthCall, Effect.loginCall,
                      Effect.logError e] }
  else
    match logInM jar env with
    | Except.ok p =>
      { result := Except.ok p.1, jar := p.2
        effects := [Effect.strategyCall, Effect.loginCall] }
    | Except.error e =>
      { result := Except.error RiotErr.riotLoginFailed, jar := jar
        effects := [Effect.strategyCall, Effect.loginCall, Effect.logError e] }

/-- Result of the lazy store load of lines 190-203.  `crash = true` marks
the case where the record is present but `CookieJar.deserializeSync` throws
(line 200); the field assignments of lines 195-198 have already happened at
that point, which `state` reflects. -/
structure LoadOut where
  state : ProviderState
  crash : Bool
  effects : List Effect
deriving Repr

/-- Lines 190-203 of `_newInvoke`: when the in-memory `expiresAt` is `=== 0`
and the store has an `expiresAt` key, restore the four credential fields and
the jar from the store.  A load is one credential generation: all three
ghost generations become the same fresh value. -/
def loadPhase (s : ProviderState) (st : StoreState) : LoadOut :=
  if jsEqB s.expiresAt (JSNum.num 0) then
    match st.expiresAtV with
    | some v =>
      let g := s.genCounter + 1
      let sF : ProviderState :=
        { s with expiresAt := v, token := st.token, entitlement := st.entitlement
                 puuid := st.puuid, genCounter := g, tokenGen := g, entGen := g
                 puuidGen := g }
      match st.cookies with
      | some jarS =>
        { state := { sF with jar := jarS }, crash := false
          effects := [Effect.storeHas, Effect.storeLoad] }
      | none =>
        { state := sF, crash := true
          effects := [Effect.storeHas, Effect.storeLoad] }
    | none => { state := s, crash := false, effects := [Effect.storeHas] }
  else { state := s, crash := false, effects := [] }

/-- Result of the renewal body (lines 207-252 with the expiry test true). -/
structure RenewOut where
  state : ProviderState
  store : StoreState
  result : Except RiotErr Unit
  effects : List Effect
deriving Repr

/-- Lines 209-251 of `_newInvoke`: run the fallback chain; on its success
assign `this.token` (line 237), then the entitlement lookup (line 239), then
the puuid lookup (line 240), then compute the new `expiresAt` from a fresh
clock reading (line 243) and write all five store keys (lines 245-251).
Note the partial assignments: a failing entitlement lookup leaves the new
token committed; a failing puuid lookup leaves token and entitlement
committed. -/
def renewPhase (s : ProviderState) (st : StoreState) (env : Env) : RenewOut :=
  let strat := renewalStrategy s.jar env
  match strat.result with
  | Except.error e =>
    { state := { s with jar := strat.jar }, store := st
      result := Except.error e, effects := strat.effects }
  | Except.ok td =>
    let g := s.genCounter + 1
    let s1 : ProviderState :=
      { s with jar := strat.jar, token := td.accessToken, genCounter := g
               tokenGen := g }
    match env.entitlementResult with
    | Except.error msg =>
      { state := s1, store := st, result := Except.error (RiotErr.ext msg)
        effects := strat.effects ++ [Effect.deriveEnt] }
    | Except.ok ent =>
      let s2 : ProviderState := { s1 with entitlement := some ent, entGen := g }
      match env.puuidResult with
      | Except.error msg =>
        { state := s2, store := st, result := Except.error (RiotErr.ext msg)
          effects := strat.effects ++ [Effect.deriveEnt, Effect.derivePuuid] }
      | Except.ok pu =>
        let s3 : ProviderState := { s2 with puuid := some pu, puuidGen := g }
        let newExp :=
          jsSub (jsAdd (JSNum.num env.now2)
                       (jsMul (toNumber td.expiresIn) (JSNum.num 1000)))
                (JSNum.num 300000)
        let s4 : ProviderState := { s3 with expiresAt := newExp }
        { state := s4
          store :=
            { expiresAtV := some newExp, token := s4.token
              entitlement := s4.entitlement, puuid := s4.puuid
              cookies := some s4.jar }
          result := Except.ok Unit.unit
          effects := strat.effects ++
            [Effect.deriveEnt, Effect.derivePuuid, Effect.storeWrite] }

/-- The snapshot returned by `_newInvoke` (lines 254-258). -/
structure Snapshot where
  entitlement : Option String
  token : Option String
  puuid : Option String
deriving DecidableEq, Repr

/-- The three credential fields of a state, as returned to callers. -/
def snapshot (s : ProviderState) : Snapshot :=
  { entitlement := s.entitlement, token := s.token, puuid := s.puuid }

/-- Full outcome of one `_newInvoke` run. -/
structure InvokeOut where
  state : ProviderState
  store : StoreState
  result : Except RiotErr Snapshot
  effects : List Effect
deriving Repr

/-- Glue between a load result and a renewal result. -/
def renewToInvoke (lo : LoadOut) (r : RenewOut) : InvokeOut :=
  { state := r.state, store := r.store
    result :=
      match r.result with
      | Except.ok _ => Except.ok (snapshot r.state)
      | Except.error e => Except.error e
    effects := lo.effects ++ r.effects }

/-- `RiotAuthProvider._newInvoke` lines 186-259: lazy load, expiry test
against a fresh clock reading, renewal when expired, snapshot return. -/
def newInvoke (s : ProviderState) (st : StoreState) (env : Env) : InvokeOut :=
  let lo := loadPhase s st
  if lo.crash then
    { state := lo.state, store := st
      result := Except.error (RiotErr.ext "cookie jar deserialize failed")
      effects := lo.effects }
  else if jsLeB lo.state.expiresAt (JSNum.num env.now) then
    renewToInvoke lo (renewPhase lo.state st env)
  else
    { state := lo.state, store := st, result := Except.ok (snapshot lo.state)
      effects := lo.effects }

/-- `RiotAuthProvider.clearAccount` lines 93-121: remove the five store
keys, clear the jar, reset the credential fields and `expiresAt = 0`.  The
cleared credentials are all `null`, one (empty) generation. -/
def clearAccount (s : ProviderState) (_st : StoreState) :
    ProviderState × StoreState :=
  ({ jar := [], expiresAt := JSNum.num 0, token := none, entitlement := none
     puuid := none, genCounter := s.genCounter, tokenGen := 0, entGen := 0
     puuidGen := 0 },
   { expiresAtV := none, token := none, entitlement := none, puuid := none
     cookies := none })

/-- State of the promise-coalescing layer of `invoke` (lines 261-279):
whether a `this.pending` operation is in flight (and which one), how many
`_newInvoke` executions have been started, and how many callers are awaiting
the in-flight operation. -/
structure CoState where
  pending : Option Nat
  started : Nat
  waiters : Nat
deriving DecidableEq, Repr

/-- One caller entering `invoke`: the synchronous prefix up to
`await this.pending` (JS run-to-completion makes this atomic).  If nothing
is pending a new `_newInvoke` execution starts and is stored in `pending`;
either way the caller awaits the pending operation. -/
def arrive (c : CoState) : CoState :=
  match c.pending with
  | none =>
    { pending := some c.started, started := c.started + 1
      waiters := c.waiters + 1 }
  | some _ => { c with waiters := c.waiters + 1 }

/-- `n` callers entering `invoke` one after another. -/
def arriveN : CoState → Nat → CoState
  | c, 0 => c
  | c, Nat.succ n => arriveN (arrive c) n

/-- The pending operation settles with outcome `r`: every waiter receives
exactly `r`, and each waiter's `finally` clears `this.pending` (idempotent,
runs regardless of success or failure). -/
def settle (c : CoState) (r : Except RiotErr Snapshot) :
    CoState × List (Except RiotErr Snapshot) :=
  ({ pending := none, started := c.started, waiters := 0 },
   List.replicate c.waiters r)

/-- Coalescing state with one renewal in flight and its initiating caller
awaiting it. -/
def coInflight : CoState := { pending := some 0, started := 1, waiters := 1 }

/-- One operation of the public interface. -/
inductive Op where
  | invoke (env : Env)
  | clear

/-- Observation of one operation in a trace: the state and store after it,
the result it returned (`none` for `clearAccount`), and its effect log. -/
structure StepOut where
  state : ProviderState
  store : StoreState
  result : Option (Except RiotErr Snapshot)
  effects : List Effect

/-- Execute one operation. -/
def stepOp (s : ProviderState) (st : StoreState) : Op → StepOut
  | Op.invoke env =>
    let o := newInvoke s st env
    { state := o.state, store := o.store, result := some o.result
      effects := o.effects }
  | Op.clear =>
    let p := clearAccount s st
    { state := p.1, store := p.2, result := none, effects := [] }

/-- Execute a sequence of operations, collecting every step's observation. -/
def runOps : ProviderState → StoreState → List Op → List StepOut
  | _, _, [] => []
  | s, st, op :: rest =>
    let o := stepOp s st op
    o :: runOps o.state o.store rest

/-- The clock readings of successive `invoke` calls never go backwards,
starting from a lower bound `t`. -/
def timesMonotone (t : Int) : List Op → Prop
  | [] => True
  | Op.invoke env :: rest => t ≤ env.now ∧ timesMonotone env.now rest
  | Op.clear :: rest => timesMonotone t rest

/-- All three in-memory credentials stem from the same token generation. -/
def gensMatched (s : ProviderState) : Prop :=
  s.entGen = s.tokenGen ∧ s.puuidGen = s.tokenGen

/-- Either the credentials are generation-consistent, or the state's expiry
is a real number not exceeding `t` (so any invoke at a clock `≥ t` takes the
renewal path rather than returning the mismatched credentials). -/
def okUpTo (s : ProviderState) (t : Int) : Prop :=
  gensMatched s ∨ ∃ n : Int, s.expiresAt = JSNum.num n ∧ n ≤ t

/-- Total number of store-record loads observed in a trace. -/
def traceLoads (l : List StepOut) : Nat :=
  (l.map (fun o => countEffect o.effects Effect.storeLoad)).sum

/-- A trace consisting only of `invoke` operations whose second clock
reading (line 243) is past `300001` ms after the epoch — i.e. any realistic
clock — and whose renewal payloads carry `expires_in` only as an absent
field or a plain digit string, the shape the provider actually sends.
Under these two conditions a successful renewal can never set `expiresAt`
to exactly `0`. -/
def lateInvokes : List Op → Prop
  | [] => True
  | Op.invoke env :: rest =>
    300001 ≤ env.now2 ∧ envPlainPayloads env = true ∧ lateInvokes rest
  | Op.clear :: _ => False

/-! ## Basic lemmas -/

/-- A JS `<=` against a number is true exactly for a number below it. -/
theorem jsLeB_num_iff (a : JSNum) (m : Int) :
    jsLeB a (JSNum.num m) = true ↔ ∃ n : Int, a = JSNum.num n ∧ n ≤ m := by
  cases a with
  | nan => simp [jsLeB]
  | num n =>
    simp only [jsLeB, decide_eq_true_eq]
    constructor
    · intro h; exact ⟨n, rfl, h⟩
    · rintro ⟨k, hk, hle⟩; cases hk; exact hle

/-- Reading a list of digit characters always yields a value, whatever the
accumulator. -/
theorem digitStep_foldl_some :
    ∀ (l : List Char) (a : Nat), (∀ c ∈ l, c.isDigit = true) →
      ∃ k, l.foldl digitStep (some a) = some k := by
  intro l
  induction l with
  | nil => intro a _; exact ⟨a, rfl⟩
  | cons c rest ih =>
    intro a h
    have hc : c.isDigit = true := h c (List.mem_cons_self c rest)
    have hd : decDigit? c = some (c.toNat - 48) := by
      unfold decDigit?
      rw [if_pos hc]
    have hstep : digitStep (some a) c = some (a * 10 + (c.toNat - 48)) := by
      unfold digitStep
      rw [hd]
    rw [List.foldl_cons, hstep]
    exact ih (a * 10 + (c.toNat - 48)) (fun c2 hc2 => h c2 (List.mem_cons_of_mem c hc2))

/-- On an all-digit character list the signed reader is the unsigned one. -/
theorem signDigitsVal?_digits (l : List Char) (h : ∀ c ∈ l, c.isDigit = true) :
    signDigitsVal? l = (digitsVal? l).map (fun n => Int.ofNat n) := by
  cases l with
  | nil => rfl
  | cons c rest =>
    have hc : c.isDigit = true := h c (List.mem_cons_self c rest)
    have hminus : ¬ (c = '-') := fun hcc => by
      rw [hcc] at hc
      exact absurd hc (by decide)
    have hplus : ¬ (c = '+') := fun hcc => by
      rw [hcc] at hc
      exact absurd hc (by decide)
    simp only [signDigitsVal?]
    rw [if_neg hminus, if_neg hplus]

/-- On a payload whose `expires_in` is absent or a plain digit string the
modelled coercion is exact and yields a nonnegative number. -/
theorem plainExpiresIn_toNumber (td : TokenData) (h : plainExpiresIn td = true) :
    ∃ n : Int, toNumber td.expiresIn = JSNum.num n ∧ 0 ≤ n := by
  cases he : td.expiresIn with
  | none => exact ⟨0, rfl, le_refl 0⟩
  | some s =>
    unfold plainExpiresIn at h
    rw [he] at h
    have hall : ∀ c ∈ s.data, c.isDigit = true := by
      intro c hc
      exact List.all_eq_true.mp h c hc
    obtain ⟨k, hk⟩ := digitStep_foldl_some s.data 0 hall
    have hk2 : digitsVal? s.data = some k := hk
    refine ⟨Int.ofNat k, ?_, Int.ofNat_nonneg k⟩
    show (match signDigitsVal? s.data with
          | some n => JSNum.num n
          | none => JSNum.nan) = JSNum.num (Int.ofNat k)
    rw [signDigitsVal?_digits s.data hall, hk2]
    rfl

/-- Arrivals while an operation is pending only add waiters. -/
theorem arriveN_pending (n : Nat) (c : CoState) (p : Nat)
    (h : c.pending = some p) :
    arriveN c n =
      { pending := some p, started := c.started, waiters := c.waiters + n } := by
  induction n generalizing c with
  | zero => cases c; simp_all [arriveN]
  | succ k ih =>
    have harr : arrive c = { c with waiters := c.waiters + 1 } := by
      cases c; simp_all [arrive]
    show arriveN (arrive c) k = _
    rw [harr, ih { c with waiters := c.waiters + 1 } (by simpa using h)]
    have hw : c.waiters + 1 + k = c.waiters + (k + 1) := by omega
    simp [hw]

/-- The load phase either leaves the state untouched or produces a
generation-consistent one (all four credential fields come from the same
stored record). -/
theorem loadPhase_state_cases (s : ProviderState) (st : StoreState) :
    (loadPhase s st).state = s ∨ gensMatched (loadPhase s st).state := by
  unfold loadPhase
  split
  · cases hv : st.expiresAtV with
    | none => simp
    | some v =>
      cases hc : st.cookies with
      | none => right; simp [gensMatched]
      | some jarS => right; simp [gensMatched]
  · left; rfl

/-- On the no-crash expired path, `_newInvoke` is the load phase followed by
the renewal body. -/
theorem newInvoke_renew (s : ProviderState) (st : StoreState) (env : Env)
    (h1 : (loadPhase s st).crash = false)
    (h2 : jsLeB (loadPhase s st).state.expiresAt (JSNum.num env.now) = true) :
    newInvoke s st env =
      renewToInvoke (loadPhase s st) (renewPhase (loadPhase s st).state st env) := by
  unfold newInvoke
  simp [h1, h2]

/-- On the no-crash fresh path, `_newInvoke` returns the post-load snapshot
and changes nothing else. -/
theorem newInvoke_fresh (s : ProviderState) (st : StoreState) (env : Env)
    (h1 : (loadPhase s st).crash = false)
    (h2 : jsLeB (loadPhase s st).state.expiresAt (JSNum.num env.now) = false) :
    newInvoke s st env =
      { state := (loadPhase s st).state, store := st
        result := Except.ok (snapshot (loadPhase s st).state)
        effects := (loadPhase s st).effects } := by
  unfold newInvoke
  simp [h1, h2]

/-! ## Concrete scenarios used by counterexamples and witnesses -/

/-- A complete token payload as delivered by a successful login redirect. -/
def tdOk : TokenData := { accessToken := some "t1", expiresIn := some "3600" }

/-- No valid login cookie, interactive login succeeds, both lookups succeed;
first clock reading `1000`, second clock reading `999000`. -/
def envOk : Env :=
  { now := 1000, cookieNow := 1000, now2 := 999000
    reauthFetch := Except.error "unused"
    loginResult := Except.ok (tdOk, [])
    entitlementResult := Except.ok "e1"
    puuidResult := Except.ok "p1" }

/-- Interactive login succeeds but the entitlement lookup fails. -/
def envDerivFail : Env :=
  { now := 1000, cookieNow := 1000, now2 := 999000
    reauthFetch := Except.error "unused"
    loginResult := Except.ok (tdOk, [])
    entitlementResult := Except.error "boom"
    puuidResult := Except.error "boom" }

/-- Every acquisition path fails: no login cookie and the login window is
closed. -/
def envLoginFail : Env :=
  { now := 1000, cookieNow := 1000, now2 := 400000
    reauthFetch := Except.error "unused"
    loginResult := Except.error "window closed"
    entitlementResult := Except.error "unused"
    puuidResult := Except.error "unused" }

/-- A parseable redirect URL whose fragment has no token fields. -/
def urlNoTokenFields : ParsedURL := { hashParams := [("foo", "bar")] }

/-- A provider state holding a currently-valid `ssid` login cookie. -/
def stateWithSsid : ProviderState :=
  { initState with jar := [{ key := "ssid", value := "v", expiryTime := 2000 }] }

/-- Silent re-auth reaches a parseable redirect whose fragment lacks the
token fields; both credential lookups succeed. -/
def envBadFragment : Env :=
  { now := 1000, cookieNow := 1000, now2 := 999000
    reauthFetch := Except.ok (some urlNoTokenFields)
    loginResult := Except.error "unused"
    entitlementResult := Except.ok "e1"
    puuidResult := Except.ok "p1" }

/-! ## C9 -/

/-- C9 counterexample: a redirect URL that parses but whose fragment lacks
`access_token` and `expires_in` does not raise the malformed-redirect
error.  Fragment parsing returns `null` fields, and a full renewal through
such a redirect succeeds, committing a `null` access token instead of
failing. -/
theorem c9_no_raise_cex :
    getTokenDataFromURL (some urlNoTokenFields) =
      Except.ok { accessToken := none, expiresIn := none }
    ∧ (newInvoke stateWithSsid emptyStore envBadFragment).result =
        Except.ok { entitlement := some "e1", token := none, puuid := some "p1" } :=
  ⟨rfl, rfl⟩

/-- C9 (amended): fragment parsing raises the `Bad url` error exactly when
the redirect URL itself is unparseable; for every parseable redirect URL it
returns the (possibly `null`) `access_token` and `expires_in` fragment
fields without error, so a fragment lacking the token fields yields `null`
token data and renewal proceeds with it. -/
theorem c9_fragment_parse_total (u : Option ParsedURL) :
    (u = none → getTokenDataFromURL u = Except.error "Bad url")
    ∧ (∀ pu, u = some pu →
        getTokenDataFromURL u =
          Except.ok
            { accessToken := searchParamsGet pu.hashParams "access_token"
              expiresIn := searchParamsGet pu.hashParams "expires_in" }) := by
  constructor
  · intro h; rw [h]; rfl
  · intro pu h; rw [h]; rfl

/-- C9 witness: the amended theorem evaluated at the unparseable redirect
(`null` location header) and at a concrete parseable fragment-less URL. -/
theorem c9_fragment_parse_total_witness :
    getTokenDataFromURL none = Except.error "Bad url"
    ∧ getTokenDataFromURL (some urlNoTokenFields) =
        Except.ok { accessToken := none, expiresIn := none } := by
  constructor
  · exact (c9_fragment_parse_total none).1 rfl
  · rw [(c9_fragment_parse_total (some urlNoTokenFields)).2 urlNoTokenFields rfl]
    decide

/-! ## C5 -/

/-- C5 counterexample: with the acquire-entry clock (line 205) at `1000` and
the post-derivation clock (line 243) at `999000`, a successful renewal with
`expiresInSeconds = 3600` sets `expiresAt` to `999000 + 3600*1000 - 300000`,
not `1000 + 3600*1000 - 300000` computed from the pre-renewal timestamp as
the claim states. -/
theorem c5_margin_cex :
    (newInvoke initState emptyStore envOk).result =
      Except.ok { entitlement := some "e1", token := some "t1", puuid := some "p1" }
    ∧ (newInvoke initState emptyStore envOk).state.expiresAt ≠
        JSNum.num (1000 + 3600 * 1000 - 300000) :=
  ⟨rfl, by decide⟩

/-- C5 (amended): after a successful renewal whose payload coerces to
`expiresInSeconds = E`, the new `expiresAt` — in memory and in the persisted
record — equals `t2 + E*1000 - 300000`, where `t2` is the fresh clock
reading taken at line 243 after derivation completes, not the timestamp the
acquire call computed before renewal began. -/
theorem c5_margin_second_clock (s : ProviderState) (st : StoreState) (env : Env)
    (td : TokenData) (E : Int) (ent pu : String)
    (h1 : (loadPhase s st).crash = false)
    (h2 : jsLeB (loadPhase s st).state.expiresAt (JSNum.num env.now) = true)
    (h3 : (renewalStrategy (loadPhase s st).state.jar env).result = Except.ok td)
    (h4 : toNumber td.expiresIn = JSNum.num E)
    (h5 : env.entitlementResult = Except.ok ent)
    (h6 : env.puuidResult = Except.ok pu) :
    (newInvoke s st env).state.expiresAt = JSNum.num (env.now2 + E * 1000 - 300000)
    ∧ (newInvoke s st env).store.expiresAtV =
        some (JSNum.num (env.now2 + E * 1000 - 300000)) := by
  rw [newInvoke_renew s st env h1 h2]
  simp only [renewPhase, renewToInvoke, h3, h5, h6, h4, jsMul, jsAdd, jsSub]
  constructor <;> trivial

/-- C5 witness: the amended margin equation at the concrete successful
renewal scenario. -/
theorem c5_margin_second_clock_witness :
    (newInvoke initState emptyStore envOk).state.expiresAt =
      JSNum.num (999000 + 3600 * 1000 - 300000)
    ∧ (newInvoke initState emptyStore envOk).store.expiresAtV =
        some (JSNum.num (999000 + 3600 * 1000 - 300000)) :=
  c5_margin_second_clock initState emptyStore envOk tdOk 3600 "e1" "p1"
    (by decide) (by decide) (by decide) (by decide) (by decide) (by decide)

/-! ## C6 -/

/-- C6: when the in-memory expiry is strictly in the future (and `now` is a
real timestamp, hence nonnegative), `_newInvoke` returns the current
credential fields unchanged and is a complete no-op: state and store are
untouched and the effect log is empty — no load, no renewal, no derivation,
no persistence write. -/
theorem c6_fast_path_frame (s : ProviderState) (st : StoreState) (env : Env)
    (h0 : 0 ≤ env.now)
    (h1 : jsLtB (JSNum.num env.now) s.expiresAt = true) :
    newInvoke s st env =
      { state := s, store := st, result := Except.ok (snapshot s)
        effects := [] } := by
  obtain ⟨e, he, hlt⟩ : ∃ e : Int, s.expiresAt = JSNum.num e ∧ env.now < e := by
    cases hs : s.expiresAt with
    | nan => rw [hs] at h1; cases h1
    | num e =>
      rw [hs] at h1
      simp only [jsLtB, decide_eq_true_eq] at h1
      exact ⟨e, rfl, h1⟩
  have hne : jsEqB s.expiresAt (JSNum.num 0) = false := by
    rw [he]
    have hne0 : e ≠ 0 := by omega
    simp [jsEqB, hne0]
  have hload : loadPhase s st = { state := s, crash := false, effects := [] } := by
    unfold loadPhase
    rw [hne]
    simp
  have hle : jsLeB s.expiresAt (JSNum.num env.now) = false := by
    rw [he]
    have hgt : ¬ (e ≤ env.now) := by omega
    simp [jsLeB, hgt]
  unfold newInvoke
  rw [hload]
  simp [hle]

/-- A state whose credentials are fresh (`expiresAt` in the future). -/
def freshState : ProviderState :=
  { initState with expiresAt := JSNum.num 5000, token := some "t0"
                   entitlement := some "e0", puuid := some "p0" }

/-- C6 witness: the fast-path frame property at a concrete fresh state and
clock `1000 < 5000`. -/
theorem c6_fast_path_frame_witness :
    newInvoke freshState emptyStore envOk =
      { state := freshState, store := emptyStore
        result := Except.ok (snapshot freshState), effects := [] } :=
  c6_fast_path_frame freshState emptyStore envOk (by decide) (by decide)

/-! ## Renewal-body case analysis -/

/-- Occurrence counting distributes over appended logs. -/
theorem countEffect_append (a b : List Effect) (e : Effect) :
    countEffect (a ++ b) e = countEffect a e + countEffect b e := by
  simp [countEffect, List.filter_append]

/-- The fallback chain performs no store access and no derivation, and marks
exactly one strategy invocation. -/
theorem renewalStrategy_effects_pure (jar : List Cookie) (env : Env) :
    countEffect (renewalStrategy jar env).effects Effect.storeWrite = 0
    ∧ countEffect (renewalStrategy jar env).effects Effect.storeLoad = 0
    ∧ countEffect (renewalStrategy jar env).effects Effect.storeHas = 0
    ∧ countEffect (renewalStrategy jar env).effects Effect.strategyCall = 1
    ∧ countEffect (renewalStrategy jar env).effects Effect.deriveEnt = 0
    ∧ countEffect (renewalStrategy jar env).effects Effect.derivePuuid = 0 := by
  unfold renewalStrategy
  split
  · split
    · simp [countEffect, effEq]
    · split
      · simp [countEffect, effEq]
      · simp [countEffect, effEq]
  · split
    · simp [countEffect, effEq]
    · simp [countEffect, effEq]

/-- The fallback chain either fails with the umbrella error — leaving the
jar untouched and logging the original cause — or yields a token payload. -/
theorem renewalStrategy_cases (jar : List Cookie) (env : Env) :
    ((renewalStrategy jar env).result = Except.error RiotErr.riotLoginFailed
      ∧ (renewalStrategy jar env).jar = jar
      ∧ ∃ msg, Effect.logError msg ∈ (renewalStrategy jar env).effects)
    ∨ (∃ td, (renewalStrategy jar env).result = Except.ok td) := by
  unfold renewalStrategy
  by_cases hc : hasLoginCookie jar env.cookieNow
  · rw [if_pos hc]
    cases hr : reauthTokenM env with
    | ok td => right; exact ⟨td, rfl⟩
    | error e1 =>
      cases hl : logInM jar env with
      | ok p => right; exact ⟨p.1, rfl⟩
      | error e2 =>
        left
        refine ⟨rfl, rfl, e2, ?_⟩
        simp
  · rw [if_neg hc]
    cases hl : logInM jar env with
    | ok p => right; exact ⟨p.1, rfl⟩
    | error e2 =>
      left
      refine ⟨rfl, rfl, e2, ?_⟩
      simp

/-- An error result of `_newInvoke`'s renewal wrapper comes from the renewal
body. -/
theorem renewToInvoke_error (lo : LoadOut) (r : RenewOut) (e : RiotErr)
    (h : (renewToInvoke lo r).result = Except.error e) :
    r.result = Except.error e := by
  unfold renewToInvoke at h
  cases hr : r.result with
  | ok u => rw [hr] at h; simp at h
  | error e2 =>
    rw [hr] at h
    simp at h
    simp_all

/-- Renewal body, token-acquisition failure: state unchanged but for the
jar (which the failed chain also leaves unchanged), store untouched, the
chain's error propagated. -/
theorem renewPhase_strategy_error (s1 : ProviderState) (st : StoreState)
    (env : Env) (e : RiotErr)
    (h : (renewalStrategy s1.jar env).result = Except.error e) :
    renewPhase s1 st env =
      { state := { s1 with jar := (renewalStrategy s1.jar env).jar }
        store := st, result := Except.error e
        effects := (renewalStrategy s1.jar env).effects } := by
  simp only [renewPhase, h]

/-- Renewal body, entitlement-lookup failure: the new token is already
committed in memory; everything else is unchanged and the raw lookup error
propagates. -/
theorem renewPhase_ent_error (s1 : ProviderState) (st : StoreState) (env : Env)
    (td : TokenData) (msg : String)
    (h : (renewalStrategy s1.jar env).result = Except.ok td)
    (he : env.entitlementResult = Except.error msg) :
    renewPhase s1 st env =
      { state :=
          { s1 with jar := (renewalStrategy s1.jar env).jar
                    token := td.accessToken, genCounter := s1.genCounter + 1
                    tokenGen := s1.genCounter + 1 }
        store := st, result := Except.error (RiotErr.ext msg)
        effects := (renewalStrategy s1.jar env).effects ++ [Effect.deriveEnt] } := by
  simp only [renewPhase, h, he]

/-- Renewal body, puuid-lookup failure: the new token and entitlement are
already committed in memory; puuid and expiry unchanged, raw error
propagates. -/
theorem renewPhase_puuid_error (s1 : ProviderState) (st : StoreState) (env : Env)
    (td : TokenData) (ent msg : String)
    (h : (renewalStrategy s1.jar env).result = Except.ok td)
    (he : env.entitlementResult = Except.ok ent)
    (hp : env.puuidResult = Except.error msg) :
    renewPhase s1 st env =
      { state :=
          { s1 with jar := (renewalStrategy s1.jar env).jar
                    token := td.accessToken, entitlement := some ent
                    genCounter := s1.genCounter + 1
                    tokenGen := s1.genCounter + 1, entGen := s1.genCounter + 1 }
        store := st, result := Except.error (RiotErr.ext msg)
        effects := (renewalStrategy s1.jar env).effects ++
          [Effect.deriveEnt, Effect.derivePuuid] } := by
  simp only [renewPhase, h, he, hp]

/-- Renewal body, full success: all three credentials and the expiry are
replaced from the same generation, and all five store keys are written. -/
theorem renewPhase_success (s1 : ProviderState) (st : StoreState) (env : Env)
    (td : TokenData) (ent pu : String)
    (h : (renewalStrategy s1.jar env).result = Except.ok td)
    (he : env.entitlementResult = Except.ok ent)
    (hp : env.puuidResult = Except.ok pu) :
    renewPhase s1 st env =
      { state :=
          { s1 with jar := (renewalStrategy s1.jar env).jar
                    token := td.accessToken, entitlement := some ent
                    puuid := some pu
                    expiresAt :=
                      jsSub (jsAdd (JSNum.num env.now2)
                                   (jsMul (toNumber td.expiresIn) (JSNum.num 1000)))
                            (JSNum.num 300000)
                    genCounter := s1.genCounter + 1, tokenGen := s1.genCounter + 1
                    entGen := s1.genCounter + 1, puuidGen := s1.genCounter + 1 }
        store :=
          { expiresAtV :=
              some (jsSub (jsAdd (JSNum.num env.now2)
                                  (jsMul (toNumber td.expiresIn) (JSNum.num 1000)))
                          (JSNum.num 300000))
            token := td.accessToken, entitlement := some ent, puuid := some pu
            cookies := some (renewalStrategy s1.jar env).jar }
        result := Except.ok Unit.unit
        effects := (renewalStrategy s1.jar env).effects ++
          [Effect.deriveEnt, Effect.derivePuuid, Effect.storeWrite] } := by
  simp only [renewPhase, h, he, hp]

/-- The load phase never writes the store, never acquires a token, never
derives credentials, and loads the record at most once. -/
theorem loadPhase_effects_pure (s : ProviderState) (st : StoreState) :
    countEffect (loadPhase s st).effects Effect.storeWrite = 0
    ∧ countEffect (loadPhase s st).effects Effect.strategyCall = 0
    ∧ countEffect (loadPhase s st).effects Effect.reauthCall = 0
    ∧ countEffect (loadPhase s st).effects Effect.loginCall = 0
    ∧ countEffect (loadPhase s st).effects Effect.deriveEnt = 0
    ∧ countEffect (loadPhase s st).effects Effect.derivePuuid = 0
    ∧ countEffect (loadPhase s st).effects Effect.storeLoad ≤ 1 := by
  unfold loadPhase
  split
  · split
    · split
      · simp [countEffect, effEq]
      · simp [countEffect, effEq]
    · simp [countEffect, effEq]
  · simp [countEffect, effEq]

/-! ## C2 -/

/-- A state with an old-generation credential set that must renew. -/
def stateOldCreds : ProviderState :=
  { initState with token := some "oldTok", entitlement := some "oldEnt"
                   puuid := some "oldPuuid" }

/-- C2 counterexample: a renewal that obtains a token and then fails the
entitlement lookup rejects, yet the in-memory `token` field has already been
overwritten (line 237 runs before the lookups) — so not every field of the
Credential Set is left as it was before the attempt. -/
theorem c2_partial_commit_cex :
    (newInvoke stateOldCreds emptyStore envDerivFail).result =
      Except.error (RiotErr.ext "boom")
    ∧ (newInvoke stateOldCreds emptyStore envDerivFail).state.token ≠
        stateOldCreds.token :=
  ⟨rfl, by decide⟩

/-- C2 (amended): on any failing renewal the persisted record is untouched —
no `setItem` batch runs and the threaded store is identical — and the
in-memory `expiresAt` and `puuid` keep their pre-attempt values; when the
failure is in token acquisition the whole in-memory state equals the
pre-attempt (post-load) state, but when acquisition succeeded the in-memory
`token` has already been overwritten with the new payload's access token
(and, when the puuid lookup is what failed, `entitlement` has too). -/
theorem c2_failure_frame (s : ProviderState) (st : StoreState) (env : Env)
    (e : RiotErr)
    (h1 : (loadPhase s st).crash = false)
    (h2 : jsLeB (loadPhase s st).state.expiresAt (JSNum.num env.now) = true)
    (h3 : (newInvoke s st env).result = Except.error e) :
    (newInvoke s st env).store = st
    ∧ countEffect (newInvoke s st env).effects Effect.storeWrite = 0
    ∧ (newInvoke s st env).state.expiresAt = (loadPhase s st).state.expiresAt
    ∧ (newInvoke s st env).state.puuid = (loadPhase s st).state.puuid
    ∧ ((renewalStrategy (loadPhase s st).state.jar env).result =
          Except.error RiotErr.riotLoginFailed →
        (newInvoke s st env).state = (loadPhase s st).state)
    ∧ (∀ td, (renewalStrategy (loadPhase s st).state.jar env).result = Except.ok td →
        (newInvoke s st env).state.token = td.accessToken) := by
  rw [newInvoke_renew s st env h1 h2] at h3 ⊢
  have hr := renewToInvoke_error _ _ _ h3
  have hload := loadPhase_effects_pure s st
  have hstrat := renewalStrategy_effects_pure (loadPhase s st).state.jar env
  rcases renewalStrategy_cases (loadPhase s st).state.jar env with
    ⟨hres, hjar, _⟩ | ⟨td, hok⟩
  · rw [renewPhase_strategy_error _ _ _ _ hres]
    refine ⟨rfl, ?_, rfl, rfl, ?_, ?_⟩
    · show countEffect ((loadPhase s st).effects ++
        (renewalStrategy (loadPhase s st).state.jar env).effects) Effect.storeWrite = 0
      rw [countEffect_append, hload.1, hstrat.1]
    · intro _
      show { (loadPhase s st).state with
              jar := (renewalStrategy (loadPhase s st).state.jar env).jar } =
            (loadPhase s st).state
      rw [hjar]
    · intro td htd
      rw [hres] at htd
      exact Except.noConfusion htd
  · cases hent : env.entitlementResult with
    | error msg =>
      rw [renewPhase_ent_error _ _ _ _ _ hok hent]
      refine ⟨rfl, ?_, rfl, rfl, ?_, ?_⟩
      · show countEffect ((loadPhase s st).effects ++
          ((renewalStrategy (loadPhase s st).state.jar env).effects ++
            [Effect.deriveEnt])) Effect.storeWrite = 0
        rw [countEffect_append, countEffect_append, hload.1, hstrat.1]
        simp [countEffect, effEq]
      · intro hcontra
        rw [hok] at hcontra
        exact Except.noConfusion hcontra
      · intro td2 htd2
        rw [hok] at htd2
        cases Except.ok.inj htd2
        rfl
    | ok ent =>
      cases hpu : env.puuidResult with
      | error msg =>
        rw [renewPhase_puuid_error _ _ _ _ _ _ hok hent hpu]
        refine ⟨rfl, ?_, rfl, rfl, ?_, ?_⟩
        · show countEffect ((loadPhase s st).effects ++
            ((renewalStrategy (loadPhase s st).state.jar env).effects ++
              [Effect.deriveEnt, Effect.derivePuuid])) Effect.storeWrite = 0
          rw [countEffect_append, countEffect_append, hload.1, hstrat.1]
          simp [countEffect, effEq]
        · intro hcontra
          rw [hok] at hcontra
          exact Except.noConfusion hcontra
        · intro td2 htd2
          rw [hok] at htd2
          cases Except.ok.inj htd2
          rfl
      | ok pu =>
        rw [renewPhase_success _ _ _ _ _ _ hok hent hpu] at hr
        exact absurd hr (by simp)

/-- C2 witness: the amended failure frame evaluated at the concrete
entitlement-failure scenario, including the already-committed token. -/
theorem c2_failure_frame_witness :
    (newInvoke stateOldCreds emptyStore envDerivFail).store = emptyStore
    ∧ countEffect (newInvoke stateOldCreds emptyStore envDerivFail).effects
        Effect.storeWrite = 0
    ∧ (newInvoke stateOldCreds emptyStore envDerivFail).state.expiresAt =
        (loadPhase stateOldCreds emptyStore).state.expiresAt
    ∧ (newInvoke stateOldCreds emptyStore envDerivFail).state.token =
        tdOk.accessToken := by
  have h := c2_failure_frame stateOldCreds emptyStore envDerivFail
    (RiotErr.ext "boom") (by decide) (by decide) (by decide)
  exact ⟨h.1, h.2.1, h.2.2.1, h.2.2.2.2.2 tdOk (by decide)⟩

/-! ## C3 -/

/-- C3 counterexample: a renewal failing in the entitlement lookup (after a
token was obtained) rejects with the raw lookup error, not with the single
umbrella `Riot login failed` error the claim requires for every failing
step. -/
theorem c3_umbrella_cex :
    (newInvoke stateOldCreds emptyStore envDerivFail).result =
      Except.error (RiotErr.ext "boom")
    ∧ RiotErr.ext "boom" ≠ RiotErr.riotLoginFailed :=
  ⟨rfl, by decide⟩

/-- C3 (amended): only token-acquisition failures are wrapped into the
umbrella `Riot login failed` error (with the original cause logged);
failures of the entitlement or puuid lookup after a token was obtained
propagate to the waiting callers as the raw lookup error. -/
theorem c3_error_propagation (s : ProviderState) (st : StoreState) (env : Env)
    (h1 : (loadPhase s st).crash = false)
    (h2 : jsLeB (loadPhase s st).state.expiresAt (JSNum.num env.now) = true) :
    (∀ e, (renewalStrategy (loadPhase s st).state.jar env).result = Except.error e →
        (newInvoke s st env).result = Except.error RiotErr.riotLoginFailed
        ∧ ∃ msg, Effect.logError msg ∈ (newInvoke s st env).effects)
    ∧ (∀ td msg,
        (renewalStrategy (loadPhase s st).state.jar env).result = Except.ok td →
        env.entitlementResult = Except.error msg →
        (newInvoke s st env).result = Except.error (RiotErr.ext msg))
    ∧ (∀ td ent msg,
        (renewalStrategy (loadPhase s st).state.jar env).result = Except.ok td →
        env.entitlementResult = Except.ok ent →
        env.puuidResult = Except.error msg →
        (newInvoke s st env).result = Except.error (RiotErr.ext msg)) := by
  rw [newInvoke_renew s st env h1 h2]
  refine ⟨?_, ?_, ?_⟩
  · intro e he
    rcases renewalStrategy_cases (loadPhase s st).state.jar env with
      ⟨hres, hjar, msg, hmem⟩ | ⟨td, hok⟩
    · rw [renewPhase_strategy_error _ _ _ _ hres]
      refine ⟨rfl, msg, ?_⟩
      show Effect.logError msg ∈ (loadPhase s st).effects ++
        (renewalStrategy (loadPhase s st).state.jar env).effects
      exact List.mem_append.mpr (Or.inr hmem)
    · rw [hok] at he
      exact Except.noConfusion he
  · intro td msg hok hent
    rw [renewPhase_ent_error _ _ _ _ _ hok hent]
    rfl
  · intro td ent msg hok hent hpu
    rw [renewPhase_puuid_error _ _ _ _ _ _ hok hent hpu]
    rfl

/-- C3 witness: the amended propagation rule evaluated at the concrete
entitlement-failure scenario. -/
theorem c3_error_propagation_witness :
    (newInvoke stateOldCreds emptyStore envDerivFail).result =
      Except.error (RiotErr.ext "boom") := by
  have h := c3_error_propagation stateOldCreds emptyStore envDerivFail
    (by decide) (by decide)
  exact h.2.1 tdOk "boom" (by decide) (by decide)

/-! ## C7 -/

/-- C7: during renewal, silent re-authentication is attempted exactly when
the jar holds an unexpired `ssid` login cookie; with no (valid) login cookie
interactive login is invoked directly with no silent attempt; and when a
silent attempt fails for any reason the chain falls back to interactive
login — whose success makes the renewal proceed instead of failing. -/
theorem c7_fallback_chain (jar : List Cookie) (env : Env) :
    countEffect (renewalStrategy jar env).effects Effect.reauthCall =
      (if hasLoginCookie jar env.cookieNow then 1 else 0)
    ∧ (hasLoginCookie jar env.cookieNow = false →
        countEffect (renewalStrategy jar env).effects Effect.loginCall = 1)
    ∧ (∀ e, hasLoginCookie jar env.cookieNow = true →
        reauthTokenM env = Except.error e →
        countEffect (renewalStrategy jar env).effects Effect.loginCall = 1
        ∧ ∀ p, logInM jar env = Except.ok p →
            (renewalStrategy jar env).result = Except.ok p.1) := by
  by_cases hc : hasLoginCookie jar env.cookieNow
  all_goals cases hr : reauthTokenM env
  all_goals cases hl : logInM jar env
  all_goals simp [renewalStrategy, hc, hr, hl, countEffect, effEq]

/-- A jar holding a currently-valid login cookie. -/
def jarWithSsid : List Cookie := [{ key := "ssid", value := "v", expiryTime := 2000 }]

/-- Valid login cookie, silent re-auth fails with a network error,
interactive login succeeds. -/
def envReauthFail : Env :=
  { now := 1000, cookieNow := 1000, now2 := 999000
    reauthFetch := Except.error "network down"
    loginResult := Except.ok (tdOk, [])
    entitlementResult := Except.ok "e1"
    puuidResult := Except.ok "p1" }

/-- C7 witness: a failed silent attempt falls back to one interactive login
and the chain succeeds with the login payload. -/
theorem c7_fallback_chain_witness :
    countEffect (renewalStrategy jarWithSsid envReauthFail).effects
      Effect.loginCall = 1
    ∧ (renewalStrategy jarWithSsid envReauthFail).result = Except.ok tdOk := by
  have h3 := (c7_fallback_chain jarWithSsid envReauthFail).2.2 "network down"
    (by decide) (by decide)
  exact ⟨h3.1,
    h3.2 (tdOk, [{ key := "ssid", value := "v", expiryTime := 2000 }]) (by decide)⟩

/-! ## Effect counts of the renewal body -/

/-- In one renewal-body run the fallback chain is entered exactly once and
each credential lookup runs at most once — exactly once when the run
succeeds. -/
theorem renewPhase_effects_counts (s1 : ProviderState) (st : StoreState) (env : Env) :
    countEffect (renewPhase s1 st env).effects Effect.strategyCall = 1
    ∧ countEffect (renewPhase s1 st env).effects Effect.deriveEnt ≤ 1
    ∧ countEffect (renewPhase s1 st env).effects Effect.derivePuuid ≤ 1
    ∧ ((renewPhase s1 st env).result = Except.ok Unit.unit →
        countEffect (renewPhase s1 st env).effects Effect.deriveEnt = 1
        ∧ countEffect (renewPhase s1 st env).effects Effect.derivePuuid = 1) := by
  have hS1 : countEffect (renewalStrategy s1.jar env).effects Effect.strategyCall = 1 :=
    (renewalStrategy_effects_pure s1.jar env).2.2.2.1
  have hE0 : countEffect (renewalStrategy s1.jar env).effects Effect.deriveEnt = 0 :=
    (renewalStrategy_effects_pure s1.jar env).2.2.2.2.1
  have hP0 : countEffect (renewalStrategy s1.jar env).effects Effect.derivePuuid = 0 :=
    (renewalStrategy_effects_pure s1.jar env).2.2.2.2.2
  rcases renewalStrategy_cases s1.jar env with ⟨hres, hjar, _⟩ | ⟨td, hok⟩
  · rw [renewPhase_strategy_error _ _ _ _ hres]
    refine ⟨hS1, ?_, ?_, fun hcontra => Except.noConfusion hcontra⟩
    · show countEffect (renewalStrategy s1.jar env).effects Effect.deriveEnt ≤ 1
      omega
    · show countEffect (renewalStrategy s1.jar env).effects Effect.derivePuuid ≤ 1
      omega
  · cases hent : env.entitlementResult with
    | error msg =>
      rw [renewPhase_ent_error _ _ _ _ _ hok hent]
      have hA : countEffect [Effect.deriveEnt] Effect.strategyCall = 0 := by decide
      have hB : countEffect [Effect.deriveEnt] Effect.deriveEnt = 1 := by decide
      have hC : countEffect [Effect.deriveEnt] Effect.derivePuuid = 0 := by decide
      refine ⟨?_, ?_, ?_, fun hcontra => Except.noConfusion hcontra⟩
      · show countEffect ((renewalStrategy s1.jar env).effects ++ [Effect.deriveEnt])
          Effect.strategyCall = 1
        rw [countEffect_append]; omega
      · show countEffect ((renewalStrategy s1.jar env).effects ++ [Effect.deriveEnt])
          Effect.deriveEnt ≤ 1
        rw [countEffect_append]; omega
      · show countEffect ((renewalStrategy s1.jar env).effects ++ [Effect.deriveEnt])
          Effect.derivePuuid ≤ 1
        rw [countEffect_append]; omega
    | ok ent =>
      cases hpu : env.puuidResult with
      | error msg =>
        rw [renewPhase_puuid_error _ _ _ _ _ _ hok hent hpu]
        have hA : countEffect [Effect.deriveEnt, Effect.derivePuuid]
            Effect.strategyCall = 0 := by decide
        have hB : countEffect [Effect.deriveEnt, Effect.derivePuuid]
            Effect.deriveEnt = 1 := by decide
        have hC : countEffect [Effect.deriveEnt, Effect.derivePuuid]
            Effect.derivePuuid = 1 := by decide
        refine ⟨?_, ?_, ?_, fun hcontra => Except.noConfusion hcontra⟩
        · show countEffect ((renewalStrategy s1.jar env).effects ++
            [Effect.deriveEnt, Effect.derivePuuid]) Effect.strategyCall = 1
          rw [countEffect_append]; omega
        · show countEffect ((renewalStrategy s1.jar env).effects ++
            [Effect.deriveEnt, Effect.derivePuuid]) Effect.deriveEnt ≤ 1
          rw [countEffect_append]; omega
        · show countEffect ((renewalStrategy s1.jar env).effects ++
            [Effect.deriveEnt, Effect.derivePuuid]) Effect.derivePuuid ≤ 1
          rw [countEffect_append]; omega
      | ok pu =>
        rw [renewPhase_success _ _ _ _ _ _ hok hent hpu]
        have hA : countEffect [Effect.deriveEnt, Effect.derivePuuid, Effect.storeWrite]
            Effect.strategyCall = 0 := by decide
        have hB : countEffect [Effect.deriveEnt, Effect.derivePuuid, Effect.storeWrite]
            Effect.deriveEnt = 1 := by decide
        have hC : countEffect [Effect.deriveEnt, Effect.derivePuuid, Effect.storeWrite]
            Effect.derivePuuid = 1 := by decide
        have goalS : countEffect ((renewalStrategy s1.jar env).effects ++
            [Effect.deriveEnt, Effect.derivePuuid, Effect.storeWrite])
            Effect.strategyCall = 1 := by rw [countEffect_append]; omega
        have goalE : countEffect ((renewalStrategy s1.jar env).effects ++
            [Effect.deriveEnt, Effect.derivePuuid, Effect.storeWrite])
            Effect.deriveEnt = 1 := by rw [countEffect_append]; omega
        have goalP : countEffect ((renewalStrategy s1.jar env).effects ++
            [Effect.deriveEnt, Effect.derivePuuid, Effect.storeWrite])
            Effect.derivePuuid = 1 := by rw [countEffect_append]; omega
        exact ⟨goalS, by rw [goalE], by rw [goalP],
          fun _ => ⟨goalE, goalP⟩⟩

/-- A successful result of `_newInvoke`'s renewal wrapper means the renewal
body itself succeeded. -/
theorem renewToInvoke_ok (lo : LoadOut) (r : RenewOut) (snap : Snapshot)
    (h : (renewToInvoke lo r).result = Except.ok snap) :
    r.result = Except.ok Unit.unit := by
  unfold renewToInvoke at h
  cases hr : r.result with
  | ok u => cases u; rfl
  | error e2 => rw [hr] at h; simp at h

/-! ## C1 -/

/-- C1: with a renewal in flight, `n` further callers arriving before it
settles start no second `_newInvoke` execution (`started` stays `1`); on
settlement all `n + 1` callers receive the identical result or identical
error, and the pending marker is cleared; and the single shared execution
enters the fallback chain exactly once and runs each credential lookup at
most once — exactly once when it succeeds. -/
theorem c1_coalescing (n : Nat) (s : ProviderState) (st : StoreState) (env : Env)
    (h1 : (loadPhase s st).crash = false)
    (h2 : jsLeB (loadPhase s st).state.expiresAt (JSNum.num env.now) = true) :
    (arriveN coInflight n).started = 1
    ∧ (settle (arriveN coInflight n) (newInvoke s st env).result).2 =
        List.replicate (n + 1) (newInvoke s st env).result
    ∧ (settle (arriveN coInflight n) (newInvoke s st env).result).1.pending = none
    ∧ countEffect (newInvoke s st env).effects Effect.strategyCall = 1
    ∧ countEffect (newInvoke s st env).effects Effect.deriveEnt ≤ 1
    ∧ countEffect (newInvoke s st env).effects Effect.derivePuuid ≤ 1
    ∧ (∀ snap, (newInvoke s st env).result = Except.ok snap →
        countEffect (newInvoke s st env).effects Effect.deriveEnt = 1
        ∧ countEffect (newInvoke s st env).effects Effect.derivePuuid = 1) := by
  have harr := arriveN_pending n coInflight 0 rfl
  have hload := loadPhase_effects_pure s st
  have hrp := renewPhase_effects_counts (loadPhase s st).state st env
  have hl1 := hload.2.1
  have hlE := hload.2.2.2.2.1
  have hlP := hload.2.2.2.2.2.1
  have hr1 := hrp.1
  have hrE := hrp.2.1
  have hrP := hrp.2.2.1
  rw [newInvoke_renew s st env h1 h2]
  refine ⟨?_, ?_, ?_, ?_, ?_, ?_, ?_⟩
  · rw [harr]; rfl
  · rw [harr]
    simp [settle, coInflight, Nat.add_comm]
  · rfl
  · show countEffect ((loadPhase s st).effects ++
      (renewPhase (loadPhase s st).state st env).effects) Effect.strategyCall = 1
    rw [countEffect_append]; omega
  · show countEffect ((loadPhase s st).effects ++
      (renewPhase (loadPhase s st).state st env).effects) Effect.deriveEnt ≤ 1
    rw [countEffect_append]; omega
  · show countEffect ((loadPhase s st).effects ++
      (renewPhase (loadPhase s st).state st env).effects) Effect.derivePuuid ≤ 1
    rw [countEffect_append]; omega
  · intro snap hsnap
    have hok := renewToInvoke_ok _ _ _ hsnap
    have hone := hrp.2.2.2 hok
    have hoE := hone.1
    have hoP := hone.2
    constructor
    · show countEffect ((loadPhase s st).effects ++
        (renewPhase (loadPhase s st).state st env).effects) Effect.deriveEnt = 1
      rw [countEffect_append]; omega
    · show countEffect ((loadPhase s st).effects ++
        (renewPhase (loadPhase s st).state st env).effects) Effect.derivePuuid = 1
      rw [countEffect_append]; omega

/-- C1 witness: three extra callers while the concrete successful renewal is
in flight all receive its result; one strategy invocation. -/
theorem c1_coalescing_witness :
    (arriveN coInflight 3).started = 1
    ∧ (settle (arriveN coInflight 3) (newInvoke initState emptyStore envOk).result).2 =
        List.replicate 4 (newInvoke initState emptyStore envOk).result
    ∧ (settle (arriveN coInflight 3)
        (newInvoke initState emptyStore envOk).result).1.pending = none
    ∧ countEffect (newInvoke initState emptyStore envOk).effects
        Effect.strategyCall = 1 := by
  have h := c1_coalescing 3 initState emptyStore envOk (by decide) (by decide)
  exact ⟨h.1, h.2.1, h.2.2.1, h.2.2.2.1⟩

/-- `_newInvoke` when the loaded record's jar cannot be deserialized. -/
theorem newInvoke_crash (s : ProviderState) (st : StoreState) (env : Env)
    (h1 : (loadPhase s st).crash = true) :
    newInvoke s st env =
      { state := (loadPhase s st).state, store := st
        result := Except.error (RiotErr.ext "cookie jar deserialize failed")
        effects := (loadPhase s st).effects } := by
  unfold newInvoke
  simp [h1]

/-! ## C10 -/

/-- C10: a persisted record whose stored `expiresAt` does not parse
(`parseInt` yields `NaN`): the first invocation loads the record, the
`NaN <= now` comparison is false so no renewal runs, and the stored
credentials are returned verbatim; because `NaN === 0` is false the store is
never re-read — every invoke from a `NaN`-expiry state is a complete no-op
returning the same loaded credentials — until `clearAccount` resets
`expiresAt` to `0`. -/
theorem c10_nan_expiry_sticky (st0 : StoreState) (env : Env) (jarS : List Cookie)
    (h1 : st0.expiresAtV = some JSNum.nan)
    (h2 : st0.cookies = some jarS) :
    (newInvoke initState st0 env).effects = [Effect.storeHas, Effect.storeLoad]
    ∧ (newInvoke initState st0 env).result =
        Except.ok { entitlement := st0.entitlement, token := st0.token
                    puuid := st0.puuid }
    ∧ (newInvoke initState st0 env).state.expiresAt = JSNum.nan
    ∧ (newInvoke initState st0 env).store = st0
    ∧ (∀ (s2 : ProviderState) (st2 : StoreState) (env2 : Env),
        s2.expiresAt = JSNum.nan →
        newInvoke s2 st2 env2 =
          { state := s2, store := st2, result := Except.ok (snapshot s2)
            effects := [] })
    ∧ (∀ (s2 : ProviderState) (st2 : StoreState),
        (clearAccount s2 st2).1.expiresAt = JSNum.num 0) := by
  have hload : loadPhase initState st0 =
      { state :=
          { jar := jarS, expiresAt := JSNum.nan, token := st0.token
            entitlement := st0.entitlement, puuid := st0.puuid
            genCounter := 1, tokenGen := 1, entGen := 1, puuidGen := 1 }
        crash := false, effects := [Effect.storeHas, Effect.storeLoad] } := by
    unfold loadPhase
    rw [h1, h2]
    rfl
  have hrun : newInvoke initState st0 env =
      { state :=
          { jar := jarS, expiresAt := JSNum.nan, token := st0.token
            entitlement := st0.entitlement, puuid := st0.puuid
            genCounter := 1, tokenGen := 1, entGen := 1, puuidGen := 1 }
        store := st0
        result := Except.ok { entitlement := st0.entitlement, token := st0.token
                              puuid := st0.puuid }
        effects := [Effect.storeHas, Effect.storeLoad] } := by
    unfold newInvoke
    rw [hload]
    rfl
  have hfresh : ∀ (s2 : ProviderState) (st2 : StoreState) (env2 : Env),
      s2.expiresAt = JSNum.nan →
      newInvoke s2 st2 env2 =
        { state := s2, store := st2, result := Except.ok (snapshot s2)
          effects := [] } := by
    intro s2 st2 env2 hnan
    have hl2 : loadPhase s2 st2 = { state := s2, crash := false, effects := [] } := by
      unfold loadPhase
      rw [hnan]
      rfl
    unfold newInvoke
    rw [hl2]
    have hle : jsLeB s2.expiresAt (JSNum.num env2.now) = false := by
      rw [hnan]
      rfl
    simp [hle]
  refine ⟨?_, ?_, ?_, ?_, hfresh, fun s2 st2 => rfl⟩ <;> rw [hrun]

/-- A store holding a full record whose saved expiry does not parse. -/
def storeNanRecord : StoreState :=
  { expiresAtV := some JSNum.nan, token := some "tS", entitlement := some "eS"
    puuid := some "pS", cookies := some [] }

/-- C10 witness: loading the `NaN`-expiry record at a concrete store returns
its credentials verbatim and leaves the in-memory expiry `NaN`. -/
theorem c10_nan_expiry_sticky_witness :
    (newInvoke initState storeNanRecord envOk).result =
      Except.ok { entitlement := some "eS", token := some "tS", puuid := some "pS" }
    ∧ (newInvoke initState storeNanRecord envOk).state.expiresAt = JSNum.nan := by
  have h := c10_nan_expiry_sticky storeNanRecord envOk [] (by decide) (by decide)
  exact ⟨h.2.1, h.2.2.1⟩

/-! ## C4 -/

/-- The generation-consistency bound is monotone in the clock. -/
theorem okUpTo_mono (s : ProviderState) (t t2 : Int) (h : okUpTo s t)
    (hle : t ≤ t2) : okUpTo s t2 := by
  rcases h with hm | ⟨n, hn, hb⟩
  · exact Or.inl hm
  · exact Or.inr ⟨n, hn, le_trans hb hle⟩

/-- A successful renewal body yields a generation-consistent state. -/
theorem renewPhase_ok_matched (s1 : ProviderState) (st : StoreState) (env : Env)
    (h : (renewPhase s1 st env).result = Except.ok Unit.unit) :
    gensMatched (renewPhase s1 st env).state := by
  rcases renewalStrategy_cases s1.jar env with ⟨hres, _, _⟩ | ⟨td, hok⟩
  · rw [renewPhase_strategy_error _ _ _ _ hres] at h
    exact Except.noConfusion h
  · cases hent : env.entitlementResult with
    | error msg =>
      rw [renewPhase_ent_error _ _ _ _ _ hok hent] at h
      exact Except.noConfusion h
    | ok ent =>
      cases hpu : env.puuidResult with
      | error msg =>
        rw [renewPhase_puuid_error _ _ _ _ _ _ hok hent hpu] at h
        exact Except.noConfusion h
      | ok pu =>
        rw [renewPhase_success _ _ _ _ _ _ hok hent hpu]
        exact ⟨rfl, rfl⟩

/-- A failing renewal body leaves the expiry exactly as it was. -/
theorem renewPhase_error_expiresAt (s1 : ProviderState) (st : StoreState)
    (env : Env) (e : RiotErr)
    (h : (renewPhase s1 st env).result = Except.error e) :
    (renewPhase s1 st env).state.expiresAt = s1.expiresAt := by
  rcases renewalStrategy_cases s1.jar env with ⟨hres, _, _⟩ | ⟨td, hok⟩
  · rw [renewPhase_strategy_error _ _ _ _ hres]
  · cases hent : env.entitlementResult with
    | error msg => rw [renewPhase_ent_error _ _ _ _ _ hok hent]
    | ok ent =>
      cases hpu : env.puuidResult with
      | error msg => rw [renewPhase_puuid_error _ _ _ _ _ _ hok hent hpu]
      | ok pu =>
        rw [renewPhase_success _ _ _ _ _ _ hok hent hpu] at h
        exact Except.noConfusion h

/-- The snapshot carried by a successful renewal wrapper is the snapshot of
the renewal body's final state. -/
theorem renewToInvoke_ok_snap (lo : LoadOut) (r : RenewOut) (snap : Snapshot)
    (h : (renewToInvoke lo r).result = Except.ok snap) :
    snap = snapshot r.state := by
  unfold renewToInvoke at h
  cases hr : r.result with
  | ok u => rw [hr] at h; exact (Except.ok.inj h).symm
  | error e => rw [hr] at h; simp at h

/-- One invoke step, starting below the clock bound, preserves the
consistency invariant and only returns snapshots of generation-consistent
states. -/
theorem invoke_step_ok (s : ProviderState) (st : StoreState) (env : Env)
    (t : Int) (hok : okUpTo s t) (ht : t ≤ env.now) :
    okUpTo (newInvoke s st env).state env.now
    ∧ (∀ snap, (newInvoke s st env).result = Except.ok snap →
        gensMatched (newInvoke s st env).state
        ∧ snap = snapshot (newInvoke s st env).state) := by
  cases hcr : (loadPhase s st).crash with
  | true =>
    rw [newInvoke_crash s st env hcr]
    constructor
    · rcases loadPhase_state_cases s st with heq | hm
      · rw [heq]; exact okUpTo_mono s t env.now hok ht
      · exact Or.inl hm
    · intro snap hsnap
      exact Except.noConfusion hsnap
  | false =>
    cases hle : jsLeB (loadPhase s st).state.expiresAt (JSNum.num env.now) with
    | false =>
      rw [newInvoke_fresh s st env hcr hle]
      have hmat : gensMatched (loadPhase s st).state := by
        rcases loadPhase_state_cases s st with heq | hm
        · rw [heq]
          rcases hok with hm | ⟨n, hn, hb⟩
          · exact hm
          · exfalso
            rw [heq, hn] at hle
            have : jsLeB (JSNum.num n) (JSNum.num env.now) = true := by
              simp only [jsLeB, decide_eq_true_eq]
              omega
            rw [this] at hle
            exact Bool.noConfusion hle
        · exact hm
      refine ⟨Or.inl hmat, ?_⟩
      intro snap hsnap
      exact ⟨hmat, (Except.ok.inj hsnap).symm⟩
    | true =>
      rw [newInvoke_renew s st env hcr hle]
      constructor
      · cases hres : (renewPhase (loadPhase s st).state st env).result with
        | ok u =>
          cases u
          exact Or.inl (renewPhase_ok_matched _ _ _ hres)
        | error e =>
          obtain ⟨n, hn, hb⟩ := (jsLeB_num_iff _ _).mp hle
          refine Or.inr ⟨n, ?_, hb⟩
          show (renewPhase (loadPhase s st).state st env).state.expiresAt =
            JSNum.num n
          rw [renewPhase_error_expiresAt _ _ _ _ hres]
          exact hn
      · intro snap hsnap
        have hbody := renewToInvoke_ok _ _ _ hsnap
        refine ⟨renewPhase_ok_matched _ _ _ hbody, ?_⟩
        exact renewToInvoke_ok_snap _ _ _ hsnap

/-- C4 counterexample: one invoke from the fresh provider whose entitlement
lookup fails reaches a state whose in-memory token generation is newer than
its entitlement generation — the two credentials no longer stem from the
same token generation. -/
theorem c4_generation_cex :
    ¬ gensMatched (stepOp initState emptyStore (Op.invoke envDerivFail)).state :=
  fun h => absurd h.1 (by decide)

/-- C4 (amended): a renewal that fails during derivation leaves the
in-memory token of a newer generation than entitlement/puuid (see the
counterexample), but every such mismatched state keeps an expiry at or below
the failing call's clock reading; hence, as long as successive clock
readings never decrease, every snapshot that an invoke actually returns
comes from a generation-consistent state. -/
theorem c4_returned_snapshots_matched (ops : List Op) (t0 : Int)
    (s0 : ProviderState) (st0 : StoreState)
    (h0 : okUpTo s0 t0) (hm : timesMonotone t0 ops) :
    ∀ o ∈ runOps s0 st0 ops, ∀ snap, o.result = some (Except.ok snap) →
      gensMatched o.state ∧ snap = snapshot o.state := by
  induction ops generalizing t0 s0 st0 with
  | nil =>
    intro o ho
    simp only [runOps] at ho
    exact absurd ho (List.not_mem_nil o)
  | cons op rest ih =>
    cases op with
    | invoke env =>
      obtain ⟨hts, hrest⟩ := hm
      intro o ho snap hsnap
      simp only [runOps] at ho
      rcases List.mem_cons.mp ho with heq | hmem
      · subst heq
        have hstep := invoke_step_ok s0 st0 env t0 h0 hts
        have hres : (newInvoke s0 st0 env).result = Except.ok snap :=
          Option.some.inj hsnap
        exact hstep.2 snap hres
      · have hstep := invoke_step_ok s0 st0 env t0 h0 hts
        exact ih env.now (stepOp s0 st0 (Op.invoke env)).state
          (stepOp s0 st0 (Op.invoke env)).store hstep.1 hrest o hmem snap hsnap
    | clear =>
      intro o ho snap hsnap
      simp only [runOps] at ho
      rcases List.mem_cons.mp ho with heq | hmem
      · subst heq
        exact Option.noConfusion hsnap
      · exact ih t0 (stepOp s0 st0 Op.clear).state (stepOp s0 st0 Op.clear).store
          (Or.inl ⟨rfl, rfl⟩) hm o hmem snap hsnap

/-- C4 witness: a one-step trace with a fully successful renewal returns a
snapshot of a generation-consistent state. -/
theorem c4_returned_snapshots_matched_witness :
    gensMatched (stepOp initState emptyStore (Op.invoke envOk)).state
    ∧ ({ entitlement := some "e1", token := some "t1", puuid := some "p1" } :
          Snapshot) =
        snapshot (stepOp initState emptyStore (Op.invoke envOk)).state := by
  have h := c4_returned_snapshots_matched [Op.invoke envOk] 0 initState emptyStore
    (Or.inl ⟨rfl, rfl⟩) ⟨by decide, trivial⟩
  exact h (stepOp initState emptyStore (Op.invoke envOk)) (by simp [runOps])
    { entitlement := some "e1", token := some "t1", puuid := some "p1" } (by decide)

/-! ## C8 -/

/-- JS `=== 0` agrees with model equality to `num 0`. -/
theorem jsEqB_zero_iff (a : JSNum) :
    jsEqB a (JSNum.num 0) = true ↔ a = JSNum.num 0 := by
  cases a with
  | nan => simp [jsEqB]
  | num n => simp [jsEqB]

/-- With the second clock reading past the five-minute margin and a payload
whose `expires_in` does not coerce to a negative number, a successful
renewal can never compute an `expiresAt` of exactly `0`. -/
theorem newExp_ne_zero (now2 : Int) (o : Option String) (h : 300001 ≤ now2)
    (hnn : ∀ E : Int, toNumber o = JSNum.num E → 0 ≤ E) :
    jsSub (jsAdd (JSNum.num now2) (jsMul (toNumber o) (JSNum.num 1000)))
      (JSNum.num 300000) ≠ JSNum.num 0 := by
  cases ho : toNumber o with
  | nan => simp [jsMul, jsAdd, jsSub]
  | num E =>
    have hE : 0 ≤ E := hnn E ho
    simp only [jsMul, jsAdd, jsSub, ne_eq, JSNum.num.injEq]
    have hmul : 0 ≤ E * 1000 := by positivity
    omega

/-- A payload delivered by the silent re-auth path of a plain-payload
environment has a plain `expires_in`. -/
theorem reauthTokenM_plain (env : Env) (td : TokenData)
    (hp : envPlainReauth env = true)
    (h : reauthTokenM env = Except.ok td) : plainExpiresIn td = true := by
  unfold reauthTokenM at h
  unfold envPlainReauth at hp
  cases hf : env.reauthFetch with
  | error e =>
    rw [hf] at h
    exact Except.noConfusion h
  | ok u =>
    rw [hf] at h hp
    cases u with
    | none => exact Except.noConfusion h
    | some pu =>
      have h2 : Except.ok
          ({ accessToken := searchParamsGet pu.hashParams "access_token"
             expiresIn := searchParamsGet pu.hashParams "expires_in" } : TokenData) =
          Except.ok td := h
      rw [← Except.ok.inj h2]
      exact hp

/-- A payload delivered by the interactive-login path of a plain-payload
environment has a plain `expires_in`. -/
theorem logInM_plain (env : Env) (jar : List Cookie) (p : TokenData × List Cookie)
    (hp : envPlainLogin env = true)
    (h : logInM jar env = Except.ok p) : plainExpiresIn p.1 = true := by
  unfold logInM at h
  unfold envPlainLogin at hp
  cases hl : env.loginResult with
  | error e =>
    rw [hl] at h
    exact Except.noConfusion h
  | ok q =>
    rw [hl] at h hp
    have h2 : Except.ok
        (q.1, jar ++ (q.2.filter (fun c => !c.session)).map cookieOfElectron) =
        Except.ok p := h
    rw [← Except.ok.inj h2]
    exact hp

/-- Every payload the fallback chain can deliver in a plain-payload
environment has a plain `expires_in`. -/
theorem renewalStrategy_plain (jar : List Cookie) (env : Env) (td : TokenData)
    (hp : envPlainPayloads env = true)
    (h : (renewalStrategy jar env).result = Except.ok td) :
    plainExpiresIn td = true := by
  have hp12 : envPlainReauth env = true ∧ envPlainLogin env = true := by
    have h2 : (envPlainReauth env && envPlainLogin env) = true := hp
    simp at h2
    exact h2
  unfold renewalStrategy at h
  by_cases hc : hasLoginCookie jar env.cookieNow
  · rw [if_pos hc] at h
    cases hr : reauthTokenM env with
    | ok td2 =>
      rw [hr] at h
      have h2 : Except.ok td2 = Except.ok td := h
      rw [← Except.ok.inj h2]
      exact reauthTokenM_plain env td2 hp12.1 hr
    | error e =>
      rw [hr] at h
      cases hl : logInM jar env with
      | ok p =>
        rw [hl] at h
        have h2 : Except.ok p.1 = Except.ok td := h
        rw [← Except.ok.inj h2]
        exact logInM_plain env jar p hp12.2 hl
      | error e2 =>
        rw [hl] at h
        exact Except.noConfusion (show Except.error RiotErr.riotLoginFailed =
          Except.ok td from h)
  · rw [if_neg hc] at h
    cases hl : logInM jar env with
    | ok p =>
      rw [hl] at h
      have h2 : Except.ok p.1 = Except.ok td := h
      rw [← Except.ok.inj h2]
      exact logInM_plain env jar p hp12.2 hl
    | error e2 =>
      rw [hl] at h
      exact Except.noConfusion (show Except.error RiotErr.riotLoginFailed =
        Except.ok td from h)

/-- Load phase from a nonzero in-memory expiry: nothing happens. -/
theorem loadPhase_no_zero (s : ProviderState) (st : StoreState)
    (h : jsEqB s.expiresAt (JSNum.num 0) = false) :
    loadPhase s st = { state := s, crash := false, effects := [] } := by
  unfold loadPhase
  simp [h]

/-- Load phase from a zero expiry with no saved record: only the `hasItem`
probe happens. -/
theorem loadPhase_no_record (s : ProviderState) (st : StoreState)
    (hz : s.expiresAt = JSNum.num 0) (hv : st.expiresAtV = none) :
    loadPhase s st = { state := s, crash := false, effects := [Effect.storeHas] } := by
  unfold loadPhase
  rw [hz, hv]
  rfl

/-- Load phase from a zero expiry with a full saved record. -/
theorem loadPhase_load (s : ProviderState) (st : StoreState) (v : JSNum)
    (jarS : List Cookie) (hz : s.expiresAt = JSNum.num 0)
    (hv : st.expiresAtV = some v) (hc : st.cookies = some jarS) :
    loadPhase s st =
      { state :=
          { s with jar := jarS, expiresAt := v, token := st.token
                   entitlement := st.entitlement, puuid := st.puuid
                   genCounter := s.genCounter + 1, tokenGen := s.genCounter + 1
                   entGen := s.genCounter + 1, puuidGen := s.genCounter + 1 }
        crash := false, effects := [Effect.storeHas, Effect.storeLoad] } := by
  unfold loadPhase
  rw [hz, hv, hc]
  rfl

/-- Load phase from a zero expiry with a record whose jar does not
deserialize: the field assignments happen, then the deserialization throws. -/
theorem loadPhase_load_crash (s : ProviderState) (st : StoreState) (v : JSNum)
    (hz : s.expiresAt = JSNum.num 0)
    (hv : st.expiresAtV = some v) (hc : st.cookies = none) :
    loadPhase s st =
      { state :=
          { s with expiresAt := v, token := st.token
                   entitlement := st.entitlement, puuid := st.puuid
                   genCounter := s.genCounter + 1, tokenGen := s.genCounter + 1
                   entGen := s.genCounter + 1, puuidGen := s.genCounter + 1 }
        crash := true, effects := [Effect.storeHas, Effect.storeLoad] } := by
  unfold loadPhase
  rw [hz, hv, hc]
  rfl

/-- The renewal body never performs a record load. -/
theorem renewPhase_no_load (s1 : ProviderState) (st : StoreState) (env : Env) :
    countEffect (renewPhase s1 st env).effects Effect.storeLoad = 0 := by
  have h0 : countEffect (renewalStrategy s1.jar env).effects Effect.storeLoad = 0 :=
    (renewalStrategy_effects_pure s1.jar env).2.1
  rcases renewalStrategy_cases s1.jar env with ⟨hres, _, _⟩ | ⟨td, hok⟩
  · rw [renewPhase_strategy_error _ _ _ _ hres]
    exact h0
  · cases hent : env.entitlementResult with
    | error msg =>
      rw [renewPhase_ent_error _ _ _ _ _ hok hent]
      show countEffect ((renewalStrategy s1.jar env).effects ++ [Effect.deriveEnt])
        Effect.storeLoad = 0
      rw [countEffect_append]
      have hA : countEffect [Effect.deriveEnt] Effect.storeLoad = 0 := by decide
      omega
    | ok ent =>
      cases hpu : env.puuidResult with
      | error msg =>
        rw [renewPhase_puuid_error _ _ _ _ _ _ hok hent hpu]
        show countEffect ((renewalStrategy s1.jar env).effects ++
          [Effect.deriveEnt, Effect.derivePuuid]) Effect.storeLoad = 0
        rw [countEffect_append]
        have hA : countEffect [Effect.deriveEnt, Effect.derivePuuid]
            Effect.storeLoad = 0 := by decide
        omega
      | ok pu =>
        rw [renewPhase_success _ _ _ _ _ _ hok hent hpu]
        show countEffect ((renewalStrategy s1.jar env).effects ++
          [Effect.deriveEnt, Effect.derivePuuid, Effect.storeWrite])
          Effect.storeLoad = 0
        rw [countEffect_append]
        have hA : countEffect [Effect.deriveEnt, Effect.derivePuuid, Effect.storeWrite]
            Effect.storeLoad = 0 := by decide
        omega

/-- The renewal body keeps the store's saved expiry away from `0` (with a
realistic clock) and either leaves the in-memory expiry unchanged or sets it
to a nonzero value. -/
theorem renewPhase_c8 (s1 : ProviderState) (st : StoreState) (env : Env)
    (hst : st.expiresAtV ≠ some (JSNum.num 0)) (hl : 300001 ≤ env.now2)
    (hp : envPlainPayloads env = true) :
    (renewPhase s1 st env).store.expiresAtV ≠ some (JSNum.num 0)
    ∧ ((renewPhase s1 st env).state.expiresAt = s1.expiresAt
       ∨ (renewPhase s1 st env).state.expiresAt ≠ JSNum.num 0) := by
  rcases renewalStrategy_cases s1.jar env with ⟨hres, _, _⟩ | ⟨td, hok⟩
  · rw [renewPhase_strategy_error _ _ _ _ hres]
    exact ⟨hst, Or.inl rfl⟩
  · cases hent : env.entitlementResult with
    | error msg =>
      rw [renewPhase_ent_error _ _ _ _ _ hok hent]
      exact ⟨hst, Or.inl rfl⟩
    | ok ent =>
      cases hpu : env.puuidResult with
      | error msg =>
        rw [renewPhase_puuid_error _ _ _ _ _ _ hok hent hpu]
        exact ⟨hst, Or.inl rfl⟩
      | ok pu =>
        rw [renewPhase_success _ _ _ _ _ _ hok hent hpu]
        obtain ⟨n, hn, hnn0⟩ :=
          plainExpiresIn_toNumber td (renewalStrategy_plain s1.jar env td hp hok)
        have hne := newExp_ne_zero env.now2 td.expiresIn hl
          (fun E hE => by
            rw [hn] at hE
            rw [← JSNum.num.inj hE]
            exact hnn0)
        refine ⟨?_, Or.inr hne⟩
        intro hcontra
        exact hne (Option.some.inj hcontra)

/-- `_newInvoke` keeps the saved expiry away from `0` (realistic clock). -/
theorem newInvoke_store_inv (s : ProviderState) (st : StoreState) (env : Env)
    (hst : st.expiresAtV ≠ some (JSNum.num 0)) (hl : 300001 ≤ env.now2)
    (hp : envPlainPayloads env = true) :
    (newInvoke s st env).store.expiresAtV ≠ some (JSNum.num 0) := by
  cases hcr : (loadPhase s st).crash with
  | true => rw [newInvoke_crash s st env hcr]; exact hst
  | false =>
    cases hle : jsLeB (loadPhase s st).state.expiresAt (JSNum.num env.now) with
    | false => rw [newInvoke_fresh s st env hcr hle]; exact hst
    | true =>
      rw [newInvoke_renew s st env hcr hle]
      exact (renewPhase_c8 _ st env hst hl hp).1

/-- All record loads of one `_newInvoke` run happen in its load phase. -/
theorem newInvoke_load_count (s : ProviderState) (st : StoreState) (env : Env) :
    countEffect (newInvoke s st env).effects Effect.storeLoad =
      countEffect (loadPhase s st).effects Effect.storeLoad := by
  cases hcr : (loadPhase s st).crash with
  | true => rw [newInvoke_crash s st env hcr]
  | false =>
    cases hle : jsLeB (loadPhase s st).state.expiresAt (JSNum.num env.now) with
    | false => rw [newInvoke_fresh s st env hcr hle]
    | true =>
      rw [newInvoke_renew s st env hcr hle]
      show countEffect ((loadPhase s st).effects ++
        (renewPhase (loadPhase s st).state st env).effects) Effect.storeLoad = _
      rw [countEffect_append, renewPhase_no_load]
      omega

/-- After one `_newInvoke` run the in-memory expiry either equals the
post-load expiry or is a nonzero value written by a successful renewal. -/
theorem newInvoke_expiresAt_inv (s : ProviderState) (st : StoreState) (env : Env)
    (hst : st.expiresAtV ≠ some (JSNum.num 0)) (hl : 300001 ≤ env.now2)
    (hp : envPlainPayloads env = true) :
    (newInvoke s st env).state.expiresAt = (loadPhase s st).state.expiresAt
    ∨ (newInvoke s st env).state.expiresAt ≠ JSNum.num 0 := by
  cases hcr : (loadPhase s st).crash with
  | true => rw [newInvoke_crash s st env hcr]; exact Or.inl rfl
  | false =>
    cases hle : jsLeB (loadPhase s st).state.expiresAt (JSNum.num env.now) with
    | false => rw [newInvoke_fresh s st env hcr hle]; exact Or.inl rfl
    | true =>
      rw [newInvoke_renew s st env hcr hle]
      exact (renewPhase_c8 _ st env hst hl hp).2

/-- One invoke step of the load-once analysis: the store invariant is
preserved, a record load needs a zero in-memory expiry, and a performed load
(or a nonzero pre-expiry) leaves the in-memory expiry nonzero. -/
theorem c8_step (s : ProviderState) (st : StoreState) (env : Env)
    (hst : st.expiresAtV ≠ some (JSNum.num 0)) (hl : 300001 ≤ env.now2)
    (hp : envPlainPayloads env = true) :
    (newInvoke s st env).store.expiresAtV ≠ some (JSNum.num 0)
    ∧ (s.expiresAt = JSNum.num 0 →
        countEffect (newInvoke s st env).effects Effect.storeLoad ≤ 1
        ∧ (countEffect (newInvoke s st env).effects Effect.storeLoad = 1 →
            (newInvoke s st env).state.expiresAt ≠ JSNum.num 0))
    ∧ (s.expiresAt ≠ JSNum.num 0 →
        countEffect (newInvoke s st env).effects Effect.storeLoad = 0
        ∧ (newInvoke s st env).state.expiresAt ≠ JSNum.num 0) := by
  have hcount := newInvoke_load_count s st env
  have hexp := newInvoke_expiresAt_inv s st env hst hl hp
  refine ⟨newInvoke_store_inv s st env hst hl hp, ?_, ?_⟩
  · intro hz
    cases hrec : st.expiresAtV with
    | none =>
      have h0 : countEffect (loadPhase s st).effects Effect.storeLoad = 0 := by
        rw [loadPhase_no_record s st hz hrec]
        simp [countEffect, effEq]
      constructor
      · rw [hcount, h0]; omega
      · intro h1
        rw [hcount, h0] at h1
        omega
    | some v =>
      have hvne : v ≠ JSNum.num 0 := fun hv0 => hst (by rw [hrec, hv0])
      cases hcook : st.cookies with
      | some jarS =>
        have hload := loadPhase_load s st v jarS hz hrec hcook
        have h1 : countEffect (loadPhase s st).effects Effect.storeLoad = 1 := by
          rw [hload]
          simp [countEffect, effEq]
        have hLexp : (loadPhase s st).state.expiresAt = v := by rw [hload]
        constructor
        · rw [hcount, h1]
        · intro _
          rcases hexp with he | hne
          · rw [he, hLexp]; exact hvne
          · exact hne
      | none =>
        have hload := loadPhase_load_crash s st v hz hrec hcook
        have h1 : countEffect (loadPhase s st).effects Effect.storeLoad = 1 := by
          rw [hload]
          simp [countEffect, effEq]
        have hLexp : (loadPhase s st).state.expiresAt = v := by rw [hload]
        constructor
        · rw [hcount, h1]
        · intro _
          rcases hexp with he | hne
          · rw [he, hLexp]; exact hvne
          · exact hne
  · intro hne0
    have hez : jsEqB s.expiresAt (JSNum.num 0) = false := by
      cases hb : jsEqB s.expiresAt (JSNum.num 0) with
      | true => exact absurd ((jsEqB_zero_iff s.expiresAt).mp hb) hne0
      | false => rfl
    have hload := loadPhase_no_zero s st hez
    have h0 : countEffect (loadPhase s st).effects Effect.storeLoad = 0 := by
      rw [hload]
      simp [countEffect, effEq]
    have hLexp : (loadPhase s st).state.expiresAt = s.expiresAt := by rw [hload]
    refine ⟨by rw [hcount, h0], ?_⟩
    rcases hexp with he | hne
    · rw [he, hLexp]; exact hne0
    · exact hne

/-- Over any invoke-only trace with a realistic clock, starting from a store
whose saved expiry does not parse to `0`, the number of record loads is
bounded by one when the in-memory expiry is `0` and zero otherwise. -/
theorem c8_load_aux (ops : List Op) :
    ∀ (s : ProviderState) (st : StoreState),
      st.expiresAtV ≠ some (JSNum.num 0) → lateInvokes ops →
      traceLoads (runOps s st ops) ≤
        (if s.expiresAt = JSNum.num 0 then 1 else 0) := by
  induction ops with
  | nil =>
    intro s st _ _
    simp only [runOps, traceLoads, List.map_nil, List.sum_nil]
    exact Nat.zero_le _
  | cons op rest ih =>
    intro s st hst hops
    cases op with
    | clear => exact hops.elim
    | invoke env =>
      obtain ⟨hl, hp, hrest⟩ := hops
      have hstep := c8_step s st env hst hl hp
      have htr : traceLoads (runOps s st (Op.invoke env :: rest)) =
          countEffect (newInvoke s st env).effects Effect.storeLoad +
          traceLoads (runOps (newInvoke s st env).state
            (newInvoke s st env).store rest) := by
        simp [runOps, stepOp, traceLoads]
      rw [htr]
      have hrec := ih (newInvoke s st env).state (newInvoke s st env).store
        hstep.1 hrest
      by_cases hz : s.expiresAt = JSNum.num 0
      · obtain ⟨hcle, himp⟩ := hstep.2.1 hz
        rw [if_pos hz]
        rcases Nat.le_one_iff_eq_zero_or_eq_one.mp hcle with hc0 | hc1
        · by_cases hz2 : (newInvoke s st env).state.expiresAt = JSNum.num 0
          · rw [if_pos hz2] at hrec; omega
          · rw [if_neg hz2] at hrec; omega
        · have hne := himp hc1
          rw [if_neg hne] at hrec
          omega
      · obtain ⟨hc0, hne⟩ := hstep.2.2 hz
        rw [if_neg hz]
        rw [if_neg hne] at hrec
        omega

/-- A login payload whose `expires_in` is the signed string `-700`, and a
second clock reading of exactly `1000000`. -/
def envNegExpiresIn : Env :=
  { now := 1000, cookieNow := 1000, now2 := 1000000
    reauthFetch := Except.error "unused"
    loginResult :=
      Except.ok (({ accessToken := some "t", expiresIn := some "-700" } :
        TokenData), [])
    entitlementResult := Except.ok "e1"
    puuidResult := Except.ok "p1" }

/-- Boundary of the load-once bound: a renewal payload with the signed
string `expires_in = -700` (JS coerces it to `-700`) at second clock reading
`1000000` writes `expiresAt = 1000000 - 700*1000 - 300000 = 0` exactly, so
two later failing invocations re-read the record.  Such traces violate the
plain-digit payload hypothesis (`lateInvokes`), which is therefore a real
restriction rather than an artifact of the coercion model. -/
theorem negative_payload_writes_zero_and_reloads :
    (newInvoke initState emptyStore envNegExpiresIn).store.expiresAtV =
      some (JSNum.num 0)
    ∧ traceLoads (runOps initState emptyStore
        [Op.invoke envNegExpiresIn, Op.invoke envLoginFail,
         Op.invoke envLoginFail]) = 2
    ∧ envPlainPayloads envNegExpiresIn = false := by
  refine ⟨by decide, by decide, by decide⟩

/-- A persisted record whose saved expiry parses to exactly `0`. -/
def storeZeroRecord : StoreState :=
  { expiresAtV := some (JSNum.num 0), token := some "tS", entitlement := some "eS"
    puuid := some "pS", cookies := some [] }

/-- C8 counterexample: a saved record whose stored `expiresAt` parses to
`0` defeats the `expiresAt === 0` load guard: two consecutive invokes (each
failing to renew) both read the persisted record, so it is not read at most
once per process lifetime. -/
theorem c8_reload_cex :
    traceLoads (runOps initState storeZeroRecord
      [Op.invoke envLoginFail, Op.invoke envLoginFail]) = 2 := by decide

/-- C8 (amended): the persisted record is read only on invocations that
start with in-memory `expiresAt` exactly `0`; over every invoke-only trace
from a fresh provider in which the saved expiry never parses to exactly `0`,
every renewal payload carries `expires_in` absent or as a plain decimal-digit
string (the shape the provider actually sends, and one on which the modelled
JS coercion is exact), and the clock reading at line 243 exceeds the
five-minute margin, the record is loaded at most once per process lifetime,
the in-memory state being authoritative thereafter. -/
theorem c8_load_at_most_once (ops : List Op) (st0 : StoreState)
    (hst : st0.expiresAtV ≠ some (JSNum.num 0)) (hops : lateInvokes ops) :
    traceLoads (runOps initState st0 ops) ≤ 1 := by
  have h := c8_load_aux ops initState st0 hst hops
  have hone : (if initState.expiresAt = JSNum.num 0 then 1 else 0) = 1 :=
    if_pos rfl
  rw [hone] at h
  exact h

/-- C8 witness: two invokes over the `NaN`-expiry record load it once. -/
theorem c8_load_at_most_once_witness :
    traceLoads (runOps initState storeNanRecord
      [Op.invoke envOk, Op.invoke envOk]) ≤ 1 :=
  c8_load_at_most_once [Op.invoke envOk, Op.invoke envOk] storeNanRecord
    (by decide) ⟨by decide, by decide, by decide, by decide, trivial⟩
